import Mathlib

/-!
Verification of the dely event-sourced domain service against its
natural-language specification.

The Rust sources under `src/` are shallowly embedded: aggregates become Lean
structures whose internal FIFO event queue (`EventQueue`, a `VecDeque`) is a
`List` pushed at the back; command methods that mutate `&mut self` and return
`Result` become functions `State → Except Error State` (in the source every
command validates before it mutates, so an `Err` return leaves the receiver
unchanged, which the functional translation reflects by returning the error and
discarding nothing); `apply` becomes a function on states; 64-bit ids become
`Nat` (only equality is ever used on them); `DateTime<Utc>` values become `Int`
timestamps (only their total order is used); Rust `String` becomes Lean
`String`.
-/

namespace Dely

/-- Currency (domain/core.rs): only JPY exists. -/
inductive Currency
  | JPY
  deriving Repr, DecidableEq

/-- Money (domain/core.rs): `{ amount : i64, currency }`. -/
structure Money where
  amount : Int
  currency : Currency
  deriving Repr, DecidableEq

instance : Inhabited Money := ⟨⟨0, .JPY⟩⟩

/-- Rust `s.trim().is_empty()`: the trimmed string is empty exactly when
every character of `s` is whitespace (executable form of the check the
validators perform). -/
def isBlank (s : String) : Bool := s.data.all Char.isWhitespace

/-! ## ExtraService aggregate (domain/core/extra_service.rs) -/

/-- ExtraServiceEvent (extra_service.rs lines 33-60). Ids are `Nat`. -/
inductive ExtraServiceEvent
  | extraServiceCreated (id : Nat) (name description : String) (price : Money)
  | extraServiceNameChanged (id : Nat) (name : String)
  | extraServiceDescriptionChanged (id : Nat) (description : String)
  | extraServicePriceChanged (id : Nat) (price : Money)
  | extraServiceDeleted (id : Nat)
  deriving Repr, DecidableEq

/-- ExtraService entity (extra_service.rs lines 67-76); `events` is the
internal FIFO queue of uncommitted events, pushed at the back. -/
structure ExtraService where
  id : Nat
  name : String
  description : String
  price : Money
  events : List ExtraServiceEvent
  deriving Repr, DecidableEq

/-- `ExtraService::default()`: all fields defaulted (id 0, empty strings,
Money default, empty queue). -/
def ExtraService.default : ExtraService :=
  ⟨0, "", "", ⟨0, .JPY⟩, []⟩

inductive ExtraServiceError
  | MismatchedId
  | NameIsBlank
  deriving Repr, DecidableEq

namespace ExtraService

/-- `validate_name_changed` (extra_service.rs lines 147-152). -/
def validate_name_changed (name : String) : Except ExtraServiceError Unit :=
  if isBlank name then .error .NameIsBlank else .ok ()

/-- `validate_created` (extra_service.rs lines 143-145). -/
def validate_created (name : String) : Except ExtraServiceError Unit :=
  validate_name_changed name

/-- `validate_id` (extra_service.rs lines 136-141). -/
def validate_id (s : ExtraService) (id : Nat) : Except ExtraServiceError Unit :=
  if s.id = id then .ok () else .error .MismatchedId

/-- `ExtraService::create` (extra_service.rs lines 79-100). -/
def create (id : Nat) (name description : String) (price : Money) :
    Except ExtraServiceError ExtraService := do
  validate_created name
  .ok { id := id
        name := name
        description := description
        price := price
        events := [.extraServiceCreated id name description price] }

/-- `ExtraService::change_name` (extra_service.rs lines 102-108). -/
def change_name (s : ExtraService) (name : String) :
    Except ExtraServiceError ExtraService := do
  validate_name_changed name
  .ok { s with
        name := name
        events := s.events ++ [.extraServiceNameChanged s.id name] }

/-- `ExtraService::change_description` (extra_service.rs lines 110-116). -/
def change_description (s : ExtraService) (description : String) : ExtraService :=
  { s with
    description := description
    events := s.events ++ [.extraServiceDescriptionChanged s.id description] }

/-- `ExtraService::change_price` (extra_service.rs lines 118-122). -/
def change_price (s : ExtraService) (price : Money) : ExtraService :=
  { s with
    price := price
    events := s.events ++ [.extraServicePriceChanged s.id price] }

/-- `Aggregation::validate` for ExtraService (extra_service.rs lines 169-180). -/
def validate (s : ExtraService) (e : ExtraServiceEvent) :
    Except ExtraServiceError Unit :=
  match e with
  | .extraServiceCreated _ name _ _ => validate_created name
  | .extraServiceNameChanged id name => do
      s.validate_id id
      validate_name_changed name
  | .extraServiceDescriptionChanged id _ => s.validate_id id
  | .extraServicePriceChanged id _ => s.validate_id id
  | .extraServiceDeleted id => s.validate_id id

/-- `Aggregation::apply` for ExtraService (extra_service.rs lines 182-215).
Commands returning `Err` leave the state untouched (they validate before any
mutation), which `getD`/`toOption` renders faithfully. -/
def apply (s : ExtraService) (e : ExtraServiceEvent) : ExtraService :=
  match e with
  | .extraServiceCreated id name description price =>
      if s.id ≠ id then
        match create id name description price with
        | .ok entity => entity
        | .error _ => s
      else s
  | .extraServiceNameChanged id name =>
      if s.id = id then (s.change_name name).toOption.getD s else s
  | .extraServiceDescriptionChanged id description =>
      if s.id = id then s.change_description description else s
  | .extraServicePriceChanged id price =>
      if s.id = id then s.change_price price else s
  | .extraServiceDeleted _ => s

/-- `Aggregation::clear` (domain.rs lines 82-84): empty the event queue. -/
def clear (s : ExtraService) : ExtraService := { s with events := [] }

/-- The source `PartialEq for ExtraService` (extra_service.rs lines 226-233):
equality on id, name, description, price — the event queue is ignored. -/
def eqv (a b : ExtraService) : Prop :=
  a.id = b.id ∧ a.name = b.name ∧ a.description = b.description ∧
    a.price = b.price

instance (a b : ExtraService) : Decidable (eqv a b) := by
  unfold eqv; infer_instance

/-- Replay: feed a list of historical events through `apply`
(repository `find_by_id` loop). -/
def replay (s : ExtraService) (es : List ExtraServiceEvent) : ExtraService :=
  es.foldl apply s

end ExtraService

/-- The typed command methods of ExtraService other than `create`
(spec section 4.3: `change_*`). -/
inductive ExtraServiceCommand
  | changeName (name : String)
  | changeDescription (description : String)
  | changePrice (price : Money)
  deriving Repr, DecidableEq

/-- Run one command method on the aggregate. -/
def ExtraService.runCommand (s : ExtraService) (c : ExtraServiceCommand) :
    Except ExtraServiceError ExtraService :=
  match c with
  | .changeName name => s.change_name name
  | .changeDescription d => .ok (s.change_description d)
  | .changePrice p => .ok (s.change_price p)

/-- Run a sequence of commands, requiring every one to succeed. -/
def ExtraService.runCommands (s : ExtraService) (cs : List ExtraServiceCommand) :
    Except ExtraServiceError ExtraService :=
  cs.foldlM ExtraService.runCommand s

/-! ## Prostitute aggregate (domain/core/prostitute.rs) -/

/-- CupSize (prostitute.rs lines 857-888). -/
inductive CupSize
  | AAA | AA | A | B | C | D | E | F | G | H | I | J | K | L | M | N | O | P
  | Q | R | S | T | U | V | W | X | Y | Z
  deriving Repr, DecidableEq

/-- `CupSize::new` (prostitute.rs lines 890-924); `checked_sub` returning
`None` on underflow is the `under > top` branch. -/
def CupSize.new (top under : Nat) : CupSize :=
  if under > top then .AAA
  else
    let d := top - under
    if d ≤ 6 then .AAA else if d ≤ 8 then .AA else if d ≤ 11 then .A
    else if d ≤ 13 then .B else if d ≤ 16 then .C else if d ≤ 18 then .D
    else if d ≤ 21 then .E else if d ≤ 23 then .F else if d ≤ 26 then .G
    else if d ≤ 28 then .H else if d ≤ 31 then .I else if d ≤ 33 then .J
    else if d ≤ 36 then .K else if d ≤ 38 then .L else if d ≤ 41 then .M
    else if d ≤ 43 then .N else if d ≤ 46 then .O else if d ≤ 48 then .P
    else if d ≤ 51 then .Q else if d ≤ 53 then .R else if d ≤ 56 then .S
    else if d ≤ 58 then .T else if d ≤ 61 then .U else if d ≤ 63 then .V
    else if d ≤ 66 then .W else if d ≤ 68 then .X else if d ≤ 71 then .Y
    else .Z

/-- BloodType (prostitute.rs lines 926-933). -/
inductive BloodType
  | A | B | O | AB
  deriving Repr, DecidableEq

/-- Birthday (prostitute.rs line 937) wraps a `chrono::NaiveDate`; only
equality and serialization of dates are used by the claims, so a date is
modelled as its day number. -/
structure Birthday where
  day : Nat
  deriving Repr, DecidableEq

/-- Question (prostitute.rs lines 957-962). -/
structure Question where
  question : String
  answer : String
  deriving Repr, DecidableEq

/-- Bust (prostitute.rs lines 844-849): u16 top, optional u16 under. -/
structure Bust where
  top : Nat
  under : Option Nat
  deriving Repr, DecidableEq

/-- VitalStatistics (prostitute.rs lines 836-842). -/
structure VitalStatistics where
  bust : Bust
  waist : Nat
  hip : Nat
  deriving Repr, DecidableEq

/-- Figure (prostitute.rs lines 752-759). -/
structure Figure where
  vital_statistics : Option VitalStatistics
  cup_size : Option CupSize
  height : Option Nat
  weight : Option Nat
  deriving Repr, DecidableEq

/-- `Figure::default()`: every field `None`. -/
def Figure.default : Figure := ⟨none, none, none, none⟩

/-- FigureType (prostitute.rs lines 810-834). -/
inductive FigureType
  | Slender | Plump | Petite | Tall | Normal | Voluptuous | Chubby
  deriving Repr, DecidableEq

/-- `Figure::bmi` (prostitute.rs lines 762-768): `weight / (height/100)^2`.
The source computes in `f32`; it is modelled with exact rationals, which
agrees with `f32` at every comparison the code performs away from the band
boundaries and from zero height. -/
def Figure.bmi (f : Figure) : Option ℚ :=
  match f.weight, f.height with
  | some w, some h => some ((w : ℚ) / (((h : ℚ) / 100) ^ 2))
  | _, _ => none

/-- `Figure::figure_type` (prostitute.rs lines 777-808). The `u16`
expressions `h * 59 / 100`, `h * 43 / 100`, `h * 58 / 100` wrap modulo
`2^16` before the truncating division, exactly as in the source. -/
def Figure.figure_type (f : Figure) : List FigureType :=
  let r1 : List FigureType :=
    match f.height with
    | some h =>
        (if h < 155 then [FigureType.Petite] else []) ++
        (if h ≥ 165 then [FigureType.Tall] else []) ++
        (match f.vital_statistics with
         | some v =>
             if v.bust.top > h * 59 % 65536 / 100 ∧
                v.waist < h * 43 % 65536 / 100 ∧
                v.hip > h * 58 % 65536 / 100 then [FigureType.Voluptuous]
             else []
         | none => [])
    | none => []
  let r2 : List FigureType :=
    match f.bmi with
    | some bmi =>
        (if bmi < 37/2 then [FigureType.Slender] else []) ++
        (if 23 ≤ bmi ∧ bmi < 25 then [FigureType.Plump] else []) ++
        (if 25 ≤ bmi then [FigureType.Chubby] else [])
    | none => []
  let r := r1 ++ r2
  if f.height.isSome ∧ f.weight.isSome ∧ r.isEmpty then [FigureType.Normal]
  else r

/-- ProstituteEvent (prostitute.rs lines 33-117). -/
inductive ProstituteEvent
  | prostituteJoined (id : Nat) (name catchphrase profile message : String)
      (figure : Figure) (blood : Option BloodType) (birthday : Option Birthday)
      (questions : List Question) (images : List Nat) (video : Option Nat)
  | prostituteRejoined (id : Nat)
  | prostituteLeaved (id : Nat)
  | prostituteExtraServiceNameChanged (id : Nat) (name : String)
  | prostituteCatchphraseChanged (id : Nat) (catchphrase : String)
  | prostituteProfileChanged (id : Nat) (profile : String)
  | prostituteMessageChanged (id : Nat) (message : String)
  | prostituteFigureChanged (id : Nat) (figure : Figure)
  | prostituteBloodTypeChanged (id : Nat) (blood : Option BloodType)
  | prostituteBirthdayChanged (id : Nat) (birthday : Option Birthday)
  | prostituteQuestionsChanged (id : Nat) (questions : List Question)
  | prostituteQuestionAdded (id : Nat) (question : Question)
  | prostituteQuestionDeleted (id : Nat) (index : Nat)
  | prostituteQuestionSwapped (id : Nat) (index_a index_b : Nat)
  | prostituteImagesChanged (id : Nat) (media_ids : List Nat)
  | prostituteImageAdded (id : Nat) (media_id : Nat)
  | prostituteImageDeleted (id : Nat) (media_id : Nat)
  | prostituteImageSwapped (id : Nat) (media_id_a media_id_b : Nat)
  | prostituteVideoChanged (id : Nat) (media_id : Option Nat)
  | prostituteDeleted (id : Nat)
  deriving Repr, DecidableEq

/-- Prostitute entity (prostitute.rs lines 123-153); MediaIds are `Nat`. -/
structure Prostitute where
  id : Nat
  name : String
  catchphrase : String
  profile : String
  message : String
  figure : Figure
  blood : Option BloodType
  birthday : Option Birthday
  questions : List Question
  images : List Nat
  video : Option Nat
  leaved : Bool
  events : List ProstituteEvent
  deriving Repr, DecidableEq

/-- `Prostitute::default()`. -/
def Prostitute.default : Prostitute :=
  ⟨0, "", "", "", "", Figure.default, none, none, [], [], none, false, []⟩

inductive ProstituteError
  | MismatchedId
  | AlreadyLeft
  | AlreadyJoined
  | NameIsBlank
  | CatchphraseIsBlank
  | QuestionNotFound
  | DuplicateQuestionIndex
  | DuplicateImage
  | ImageNotFound
  | DuplicateImageIndex
  deriving Repr, DecidableEq

namespace Prostitute

/-- `validate_name` (prostitute.rs lines 404-409). -/
def validate_name (name : String) : Except ProstituteError Unit :=
  if isBlank name then .error .NameIsBlank else .ok ()

/-- `validate_catchphrase` (prostitute.rs lines 411-416). -/
def validate_catchphrase (catchphrase : String) : Except ProstituteError Unit :=
  if isBlank catchphrase then .error .CatchphraseIsBlank else .ok ()

/-- `validate_created` (prostitute.rs lines 376-388): `HashSet` cardinality
equals list length exactly when the list has no duplicates. -/
def validate_created (name catchphrase : String) (images : List Nat) :
    Except ProstituteError Unit := do
  validate_name name
  validate_catchphrase catchphrase
  if images.Nodup then .ok () else .error .DuplicateImage

/-- `validate_id` (prostitute.rs lines 369-374). -/
def validate_id (s : Prostitute) (id : Nat) : Except ProstituteError Unit :=
  if s.id = id then .ok () else .error .MismatchedId

/-- `validate_rejoined` (prostitute.rs lines 390-395): errs with
`AlreadyLeft` when `leaved` is TRUE, and accepts when it is false. -/
def validate_rejoined (s : Prostitute) : Except ProstituteError Unit :=
  if s.leaved then .error .AlreadyLeft else .ok ()

/-- `validate_leaved` (prostitute.rs lines 397-402): accepts when `leaved`
is true and errs with `AlreadyJoined` when it is false. -/
def validate_leaved (s : Prostitute) : Except ProstituteError Unit :=
  if s.leaved then .ok () else .error .AlreadyJoined

/-- `validate_question_not_found` (prostitute.rs lines 459-465). -/
def validate_question_not_found (s : Prostitute) (index : Nat) :
    Except ProstituteError Unit :=
  if index ≥ s.questions.length then .error .QuestionNotFound else .ok ()

/-- `validate_question_deleted` (prostitute.rs lines 418-420). -/
def validate_question_deleted (s : Prostitute) (index : Nat) :
    Except ProstituteError Unit :=
  s.validate_question_not_found index

/-- `validate_question_swapped` (prostitute.rs lines 422-433). -/
def validate_question_swapped (s : Prostitute) (a b : Nat) :
    Except ProstituteError Unit := do
  s.validate_question_not_found a
  s.validate_question_not_found b
  if a = b then .error .DuplicateQuestionIndex else .ok ()

/-- `validate_image_added` (prostitute.rs lines 435-440). -/
def validate_image_added (s : Prostitute) (media_id : Nat) :
    Except ProstituteError Unit :=
  if media_id ∈ s.images then .error .DuplicateImage else .ok ()

/-- `validate_image_not_found` (prostitute.rs lines 467-472). -/
def validate_image_not_found (s : Prostitute) (media_id : Nat) :
    Except ProstituteError Unit :=
  if media_id ∈ s.images then .ok () else .error .ImageNotFound

/-- `validate_image_deleted` (prostitute.rs lines 442-444). -/
def validate_image_deleted (s : Prostitute) (media_id : Nat) :
    Except ProstituteError Unit :=
  s.validate_image_not_found media_id

/-- `validate_image_swapped` (prostitute.rs lines 446-457). -/
def validate_image_swapped (s : Prostitute) (a b : Nat) :
    Except ProstituteError Unit := do
  s.validate_image_not_found a
  s.validate_image_not_found b
  if a = b then .error .DuplicateImageIndex else .ok ()

/-- `Prostitute::join` (prostitute.rs lines 156-198). -/
def join (id : Nat) (name catchphrase profile message : String)
    (figure : Figure) (blood : Option BloodType) (birthday : Option Birthday)
    (questions : List Question) (images : List Nat) (video : Option Nat) :
    Except ProstituteError Prostitute := do
  validate_created name catchphrase images
  .ok { id := id
        name := name
        catchphrase := catchphrase
        profile := profile
        message := message
        figure := figure
        blood := blood
        birthday := birthday
        questions := questions
        images := images
        video := video
        leaved := false
        events := [.prostituteJoined id name catchphrase profile message
          figure blood birthday questions images video] }

/-- `Prostitute::rejoin` (prostitute.rs lines 200-206). Note the source
pushes a `ProstituteLeaved` event, not `ProstituteRejoined`. -/
def rejoin (s : Prostitute) : Except ProstituteError Prostitute := do
  s.validate_rejoined
  .ok { s with
        leaved := false
        events := s.events ++ [.prostituteLeaved s.id] }

/-- `Prostitute::leave` (prostitute.rs lines 208-214). -/
def leave (s : Prostitute) : Except ProstituteError Prostitute := do
  s.validate_leaved
  .ok { s with
        leaved := true
        events := s.events ++ [.prostituteLeaved s.id] }

/-- `Prostitute::change_name` (prostitute.rs lines 216-222); pushes the
oddly named `ProstituteExtraServiceNameChanged` variant. -/
def change_name (s : Prostitute) (name : String) :
    Except ProstituteError Prostitute := do
  validate_name name
  .ok { s with
        name := name
        events := s.events ++ [.prostituteExtraServiceNameChanged s.id name] }

/-- `Prostitute::change_catchphrase` (prostitute.rs lines 224-233). -/
def change_catchphrase (s : Prostitute) (catchphrase : String) :
    Except ProstituteError Prostitute := do
  validate_catchphrase catchphrase
  .ok { s with
        catchphrase := catchphrase
        events := s.events ++ [.prostituteCatchphraseChanged s.id catchphrase] }

/-- `Prostitute::change_profile` (prostitute.rs lines 235-241), infallible. -/
def change_profile (s : Prostitute) (profile : String) : Prostitute :=
  { s with
    profile := profile
    events := s.events ++ [.prostituteProfileChanged s.id profile] }

/-- `Prostitute::change_message` (prostitute.rs lines 243-249). -/
def change_message (s : Prostitute) (message : String) : Prostitute :=
  { s with
    message := message
    events := s.events ++ [.prostituteMessageChanged s.id message] }

/-- `Prostitute::change_figure` (prostitute.rs lines 251-257). -/
def change_figure (s : Prostitute) (figure : Figure) : Prostitute :=
  { s with
    figure := figure
    events := s.events ++ [.prostituteFigureChanged s.id figure] }

/-- `Prostitute::change_blood_type` (prostitute.rs lines 259-263). -/
def change_blood_type (s : Prostitute) (blood : Option BloodType) : Prostitute :=
  { s with
    blood := blood
    events := s.events ++ [.prostituteBloodTypeChanged s.id blood] }

/-- `Prostitute::change_birthday` (prostitute.rs lines 265-272). -/
def change_birthday (s : Prostitute) (birthday : Option Birthday) : Prostitute :=
  { s with
    birthday := birthday
    events := s.events ++ [.prostituteBirthdayChanged s.id birthday] }

/-- `Prostitute::change_questions` (prostitute.rs lines 274-281). -/
def change_questions (s : Prostitute) (questions : List Question) : Prostitute :=
  { s with
    questions := questions
    events := s.events ++ [.prostituteQuestionsChanged s.id questions] }

/-- `Prostitute::add_question` (prostitute.rs lines 283-289). -/
def add_question (s : Prostitute) (question : Question) : Prostitute :=
  { s with
    questions := s.questions ++ [question]
    events := s.events ++ [.prostituteQuestionAdded s.id question] }

/-- `Prostitute::delete_question` (prostitute.rs lines 291-297);
`Vec::remove(index)` is `List.eraseIdx`. -/
def delete_question (s : Prostitute) (index : Nat) :
    Except ProstituteError Prostitute := do
  s.validate_question_deleted index
  .ok { s with
        questions := s.questions.eraseIdx index
        events := s.events ++ [.prostituteQuestionDeleted s.id index] }

/-- `Vec::swap` on in-bounds indices; out of bounds leaves the list
unchanged (the callers validate bounds before swapping). -/
def listSwap {α : Type} (l : List α) (i j : Nat) : List α :=
  match l.get? i, l.get? j with
  | some x, some y => (l.set i y).set j x
  | _, _ => l

/-- `Prostitute::swap_question` (prostitute.rs lines 299-309). -/
def swap_question (s : Prostitute) (a b : Nat) :
    Except ProstituteError Prostitute := do
  s.validate_question_swapped a b
  .ok { s with
        questions := listSwap s.questions a b
        events := s.events ++ [.prostituteQuestionSwapped s.id a b] }

/-- `Prostitute::change_images` (prostitute.rs lines 311-317). -/
def change_images (s : Prostitute) (media_ids : List Nat) : Prostitute :=
  { s with
    images := media_ids
    events := s.events ++ [.prostituteImagesChanged s.id media_ids] }

/-- `Prostitute::add_image` (prostitute.rs lines 319-327). -/
def add_image (s : Prostitute) (media_id : Nat) :
    Except ProstituteError Prostitute := do
  s.validate_image_added media_id
  .ok { s with
        images := s.images ++ [media_id]
        events := s.events ++ [.prostituteImageAdded s.id media_id] }

/-- `Prostitute::delete_image` (prostitute.rs lines 329-337);
`Vec::retain` keeps the elements satisfying the predicate. -/
def delete_image (s : Prostitute) (media_id : Nat) :
    Except ProstituteError Prostitute := do
  s.validate_image_deleted media_id
  .ok { s with
        images := s.images.filter (fun m => m ≠ media_id)
        events := s.events ++ [.prostituteImageDeleted s.id media_id] }

/-- `Prostitute::swap_image` (prostitute.rs lines 339-358): replaces each
occurrence of either id with the other. -/
def swap_image (s : Prostitute) (a b : Nat) :
    Except ProstituteError Prostitute := do
  s.validate_image_swapped a b
  .ok { s with
        images := s.images.map (fun x => if x = a then b else if x = b then a else x)
        events := s.events ++ [.prostituteImageSwapped s.id a b] }

/-- `Aggregation::validate` for Prostitute (prostitute.rs lines 489-552). -/
def validate (s : Prostitute) (e : ProstituteEvent) :
    Except ProstituteError Unit :=
  match e with
  | .prostituteJoined _ name catchphrase _ _ _ _ _ _ images _ =>
      validate_created name catchphrase images
  | .prostituteRejoined id => do
      s.validate_id id
      s.validate_rejoined
  | .prostituteLeaved id => do
      s.validate_id id
      s.validate_leaved
  | .prostituteExtraServiceNameChanged id name => do
      s.validate_id id
      validate_name name
  | .prostituteCatchphraseChanged id catchphrase => do
      s.validate_id id
      validate_catchphrase catchphrase
  | .prostituteProfileChanged id _ => s.validate_id id
  | .prostituteMessageChanged id _ => s.validate_id id
  | .prostituteFigureChanged id _ => s.validate_id id
  | .prostituteBloodTypeChanged id _ => s.validate_id id
  | .prostituteBirthdayChanged id _ => s.validate_id id
  | .prostituteQuestionsChanged id _ => s.validate_id id
  | .prostituteQuestionAdded id _ => s.validate_id id
  | .prostituteQuestionDeleted id index => do
      s.validate_id id
      s.validate_question_deleted index
  | .prostituteQuestionSwapped id a b => do
      s.validate_id id
      s.validate_question_swapped a b
  | .prostituteImagesChanged id _ => s.validate_id id
  | .prostituteImageAdded id media_id => do
      s.validate_id id
      s.validate_image_added media_id
  | .prostituteImageDeleted id media_id => do
      s.validate_id id
      s.validate_image_deleted media_id
  | .prostituteImageSwapped id a b => do
      s.validate_id id
      s.validate_image_swapped a b
  | .prostituteVideoChanged id _ => s.validate_id id
  | .prostituteDeleted id => s.validate_id id

/-- `Aggregation::apply` for Prostitute (prostitute.rs lines 554-687).
`Prostitute::change_video` (lines 360-367) calls `apply` on the very event
that `apply` routes back to `change_video`, so the pair is mutually
recursive with no base case; the mutual recursion is embedded with an
explicit fuel argument, `none` meaning the computation did not finish
within the given fuel. Every branch except `ProstituteVideoChanged`
consumes no fuel and always returns `some`. -/
def applyBody (recur : Prostitute → ProstituteEvent → Option Prostitute)
    (s : Prostitute) (e : ProstituteEvent) : Option Prostitute :=
  match e with
  | .prostituteJoined id name catchphrase profile message figure blood
        birthday questions images video =>
      if s.id ≠ id then
        match join id name catchphrase profile message figure blood birthday
            questions images video with
        | .ok entity => some entity
        | .error _ => some s
      else some s
  | .prostituteRejoined id =>
      if s.id = id then some (s.rejoin.toOption.getD s) else some s
  | .prostituteLeaved id =>
      if s.id = id then some (s.leave.toOption.getD s) else some s
  | .prostituteExtraServiceNameChanged id name =>
      if s.id = id then some ((s.change_name name).toOption.getD s) else some s
  | .prostituteCatchphraseChanged id catchphrase =>
      if s.id = id then some ((s.change_catchphrase catchphrase).toOption.getD s)
      else some s
  | .prostituteProfileChanged id profile =>
      if s.id = id then some (s.change_profile profile) else some s
  | .prostituteMessageChanged id message =>
      if s.id = id then some (s.change_message message) else some s
  | .prostituteFigureChanged id figure =>
      if s.id = id then some (s.change_figure figure) else some s
  | .prostituteBloodTypeChanged id blood =>
      if s.id = id then some (s.change_blood_type blood) else some s
  | .prostituteBirthdayChanged id birthday =>
      if s.id = id then some (s.change_birthday birthday) else some s
  | .prostituteQuestionsChanged id questions =>
      if s.id = id then some (s.change_questions questions) else some s
  | .prostituteQuestionAdded id question =>
      if s.id = id then some (s.add_question question) else some s
  | .prostituteQuestionDeleted id index =>
      if s.id = id then some ((s.delete_question index).toOption.getD s) else some s
  | .prostituteQuestionSwapped id a b =>
      if s.id = id then some ((s.swap_question a b).toOption.getD s) else some s
  | .prostituteImagesChanged id media_ids =>
      if s.id = id then some (s.change_images media_ids) else some s
  | .prostituteImageAdded id media_id =>
      if s.id = id then some ((s.add_image media_id).toOption.getD s) else some s
  | .prostituteImageDeleted id media_id =>
      if s.id = id then some ((s.delete_image media_id).toOption.getD s) else some s
  | .prostituteImageSwapped id a b =>
      if s.id = id then some ((s.swap_image a b).toOption.getD s) else some s
  | .prostituteVideoChanged id media_id =>
      if s.id = id then
        (recur s (.prostituteVideoChanged s.id media_id)).map
          (fun s2 => { s2 with video := media_id })
      else some s
  | .prostituteDeleted _ => some s

/-- The fuel-indexed `apply`: at each recursive re-entry through
`change_video` one unit of fuel is consumed; `none` means the computation
did not finish within the given fuel. -/
def applyF : Nat → Prostitute → ProstituteEvent → Option Prostitute
  | 0 => applyBody (fun _ _ => none)
  | fuel + 1 => applyBody (applyF fuel)

/-- `Prostitute::change_video` (prostitute.rs lines 360-367): builds the
`ProstituteVideoChanged` event, applies it, then assigns `video`. -/
def change_videoF (fuel : Nat) (s : Prostitute) (video : Option Nat) :
    Option Prostitute :=
  (applyF fuel s (.prostituteVideoChanged s.id video)).map
    (fun s2 => { s2 with video := video })

/-- Applying a non-video event never consumes fuel; expose it with fuel 1
(enough for every variant but `ProstituteVideoChanged`). -/
def apply1 (s : Prostitute) (e : ProstituteEvent) : Option Prostitute :=
  applyF 1 s e

/-- `Aggregation::clear`: empty the event queue. -/
def clear (s : Prostitute) : Prostitute := { s with events := [] }

/-- The source `PartialEq for Prostitute` (prostitute.rs lines 698-713)
compares every field except the event queue, i.e. the cleared values are
equal. -/
def eqv (a b : Prostitute) : Prop := a.clear = b.clear

instance (a b : Prostitute) : Decidable (eqv a b) := by
  unfold eqv; infer_instance

/-- Replay: feed a list of historical events through `apply` (repository
`find_by_id` loop), propagating non-termination. -/
def replay (s : Prostitute) (es : List ProstituteEvent) : Option Prostitute :=
  es.foldlM apply1 s

end Prostitute

/-- The typed command methods of Prostitute other than `join`
(spec section 4.3). `change_video` is included: running it means running
the source method, whose mutual recursion with `apply` is fuel-bounded. -/
inductive ProstituteCommand
  | rejoin
  | leave
  | changeName (name : String)
  | changeCatchphrase (catchphrase : String)
  | changeProfile (profile : String)
  | changeMessage (message : String)
  | changeFigure (figure : Figure)
  | changeBloodType (blood : Option BloodType)
  | changeBirthday (birthday : Option Birthday)
  | changeQuestions (questions : List Question)
  | addQuestion (question : Question)
  | deleteQuestion (index : Nat)
  | swapQuestion (a b : Nat)
  | changeImages (media_ids : List Nat)
  | addImage (media_id : Nat)
  | deleteImage (media_id : Nat)
  | swapImage (a b : Nat)
  | changeVideo (video : Option Nat)
  deriving Repr, DecidableEq

/-- Run one command method; `none` means the method did not return within
the fuel (only possible for `changeVideo`). -/
def Prostitute.runCommand (fuel : Nat) (s : Prostitute) (c : ProstituteCommand) :
    Option (Except ProstituteError Prostitute) :=
  match c with
  | .rejoin => some s.rejoin
  | .leave => some s.leave
  | .changeName name => some (s.change_name name)
  | .changeCatchphrase cp => some (s.change_catchphrase cp)
  | .changeProfile p => some (.ok (s.change_profile p))
  | .changeMessage m => some (.ok (s.change_message m))
  | .changeFigure f => some (.ok (s.change_figure f))
  | .changeBloodType b => some (.ok (s.change_blood_type b))
  | .changeBirthday b => some (.ok (s.change_birthday b))
  | .changeQuestions qs => some (.ok (s.change_questions qs))
  | .addQuestion q => some (.ok (s.add_question q))
  | .deleteQuestion i => some (s.delete_question i)
  | .swapQuestion a b => some (s.swap_question a b)
  | .changeImages ms => some (.ok (s.change_images ms))
  | .addImage m => some (s.add_image m)
  | .deleteImage m => some (s.delete_image m)
  | .swapImage a b => some (s.swap_image a b)
  | .changeVideo v => (Prostitute.change_videoF fuel s v).map Except.ok

/-- Run a sequence of commands: every command must return, and return `Ok`. -/
def Prostitute.runCommands (fuel : Nat) (s : Prostitute)
    (cs : List ProstituteCommand) : Option (Except ProstituteError Prostitute) :=
  match cs with
  | [] => some (.ok s)
  | c :: rest =>
      match Prostitute.runCommand fuel s c with
      | none => none
      | some (.error e) => some (.error e)
      | some (.ok s1) => Prostitute.runCommands fuel s1 rest

/-! ## Schedule aggregate (domain/core/schedule.rs) -/

/-- `Range<DateTime<Utc>>`: timestamps are modelled as `Int`; `stop` stands
for the Rust field `end` (a Lean keyword). Half-open `[start, stop)`. -/
structure TimeRange where
  start : Int
  stop : Int
  deriving Repr, DecidableEq

/-- ShiftStatus (schedule.rs lines 400-416); default is Editing. -/
inductive ShiftStatus
  | Editing | Reviewing | Confirmed | Canceled
  deriving Repr, DecidableEq

inductive ShiftError
  | InvalidDuration
  | InvalidStatusTransition
  deriving Repr, DecidableEq

/-- Shift entity (schedule.rs lines 312-317). -/
structure Shift where
  id : Nat
  time : TimeRange
  status : ShiftStatus
  deriving Repr, DecidableEq

namespace Shift

/-- `Shift::validate_time` (schedule.rs lines 359-365). -/
def validate_time (time : TimeRange) : Except ShiftError Unit :=
  if time.start > time.stop then .error .InvalidDuration else .ok ()

/-- `Shift::validate_status` (schedule.rs lines 367-379): the transition
table; every pair not listed is rejected. -/
def validate_status (s : Shift) (status : ShiftStatus) : Except ShiftError Unit :=
  match s.status, status with
  | .Editing, .Reviewing | .Editing, .Confirmed
  | .Reviewing, .Editing | .Reviewing, .Confirmed | .Reviewing, .Canceled
  | .Confirmed, .Editing | .Confirmed, .Canceled
  | .Canceled, .Editing => .ok ()
  | _, _ => .error .InvalidStatusTransition

/-- `Shift::create` (schedule.rs lines 320-328). -/
def create (id : Nat) (time : TimeRange) (status : ShiftStatus) :
    Except ShiftError Shift := do
  validate_time time
  let entity : Shift := ⟨id, time, status⟩
  entity.validate_status status
  .ok entity

/-- `Shift::change_time` (schedule.rs lines 330-334). -/
def change_time (s : Shift) (time : TimeRange) : Except ShiftError Shift := do
  validate_time time
  .ok { s with time := time }

/-- `Shift::change_status` (schedule.rs lines 336-340). -/
def change_status (s : Shift) (status : ShiftStatus) : Except ShiftError Shift := do
  s.validate_status status
  .ok { s with status := status }

end Shift

/-- ScheduleEvent (schedule.rs lines 35-58). Note `ShiftTimeChanged`,
`ShiftStatusChanged` and `ShiftsDeleted` carry no schedule id. -/
inductive ScheduleEvent
  | scheduleCreated (id : Nat) (prostitute_id : Nat)
  | scheduleDeleted (id : Nat)
  | shiftAdded (id : Nat) (shift : Shift)
  | shiftTimeChanged (shift_id : Nat) (time : TimeRange)
  | shiftStatusChanged (shift_id : Nat) (status : ShiftStatus)
  | shiftsDeleted (shift_ids : List Nat)
  deriving Repr, DecidableEq

/-- Schedule entity (schedule.rs lines 64-72). -/
structure Schedule where
  id : Nat
  prostitute_id : Nat
  shifts : List Shift
  events : List ScheduleEvent
  deriving Repr, DecidableEq

/-- `Schedule::default()`. -/
def Schedule.default : Schedule := ⟨0, 0, [], []⟩

inductive ScheduleError
  | MismatchedId
  | ShiftNotFound
  | DuplicateShift
  | OverlappingShift
  | ShiftError (e : ShiftError)
  deriving Repr, DecidableEq

namespace Schedule

/-- Two half-open intervals intersect, per the `bio` interval tree's
`intersect`: both ranges non-empty AND crossing
(`r1.start < r1.end && r2.start < r2.end && r1.end > r2.start &&
r1.start < r2.end`), so zero-width intervals never overlap anything. -/
def overlap (a b : TimeRange) : Prop :=
  a.start < a.stop ∧ b.start < b.stop ∧ a.stop > b.start ∧ a.start < b.stop

instance (a b : TimeRange) : Decidable (overlap a b) := by
  unfold overlap; infer_instance

/-- `validate_id` (schedule.rs lines 140-145). -/
def validate_id (s : Schedule) (id : Nat) : Except ScheduleError Unit :=
  if s.id = id then .ok () else .error .MismatchedId

/-- `validate_duplicate_shift` (schedule.rs lines 188-193). -/
def validate_duplicate_shift (s : Schedule) (shift_id : Nat) :
    Except ScheduleError Unit :=
  if s.shifts.any (fun sh => sh.id = shift_id) then .error .DuplicateShift
  else .ok ()

/-- `validate_overlapping_shift` (schedule.rs lines 195-203): an interval
tree over ALL current shifts is searched with the candidate interval; the
shift being modified is NOT excluded. -/
def validate_overlapping_shift (s : Schedule) (time : TimeRange) :
    Except ScheduleError Unit :=
  if s.shifts.any (fun sh => overlap sh.time time) then .error .OverlappingShift
  else .ok ()

/-- `validate_shift_not_found` (schedule.rs lines 205-210). -/
def validate_shift_not_found (s : Schedule) (shift_id : Nat) :
    Except ScheduleError Unit :=
  if s.shifts.any (fun sh => sh.id = shift_id) then .ok ()
  else .error .ShiftNotFound

/-- `Schedule::shift` (schedule.rs lines 136-138). -/
def shift (s : Schedule) (shift_id : Nat) : Option Shift :=
  s.shifts.find? (fun sh => sh.id = shift_id)

/-- `validate_shift_added` (schedule.rs lines 147-150). -/
def validate_shift_added (s : Schedule) (sh : Shift) :
    Except ScheduleError Unit := do
  s.validate_duplicate_shift sh.id
  s.validate_overlapping_shift sh.time

/-- `validate_shift_time_changed` (schedule.rs lines 152-163). -/
def validate_shift_time_changed (s : Schedule) (shift_id : Nat)
    (time : TimeRange) : Except ScheduleError Unit := do
  s.validate_shift_not_found shift_id
  s.validate_overlapping_shift time
  match s.shift shift_id with
  | some _ =>
      match Shift.validate_time time with
      | .ok _ => .ok ()
      | .error e => .error (.ShiftError e)
  | none => .error .ShiftNotFound

/-- `validate_shift_status_changed` (schedule.rs lines 165-175). -/
def validate_shift_status_changed (s : Schedule) (shift_id : Nat)
    (status : ShiftStatus) : Except ScheduleError Unit := do
  s.validate_shift_not_found shift_id
  match s.shift shift_id with
  | some sh =>
      match sh.validate_status status with
      | .ok _ => .ok ()
      | .error e => .error (.ShiftError e)
  | none => .error .ShiftNotFound

/-- `validate_shifts_deleted` (schedule.rs lines 177-186): accepts iff SOME
current shift has its id in the list. -/
def validate_shifts_deleted (s : Schedule) (shift_ids : List Nat) :
    Except ScheduleError Unit :=
  if s.shifts.any (fun sh => sh.id ∈ shift_ids) then .ok ()
  else .error .ShiftNotFound

/-- `Schedule::create` (schedule.rs lines 75-85): no validation. -/
def create (id : Nat) (prostitute_id : Nat) : Schedule :=
  { id := id
    prostitute_id := prostitute_id
    shifts := []
    events := [.scheduleCreated id prostitute_id] }

/-- `Schedule::add_shift` (schedule.rs lines 87-93). -/
def add_shift (s : Schedule) (sh : Shift) : Except ScheduleError Schedule := do
  s.validate_shift_added sh
  .ok { s with
        shifts := s.shifts ++ [sh]
        events := s.events ++ [.shiftAdded s.id sh] }

/-- `Schedule::change_shift_time` (schedule.rs lines 95-108): after
validation, every shift with the id gets `change_time`, per-shift errors
silently dropped. -/
def change_shift_time (s : Schedule) (shift_id : Nat) (time : TimeRange) :
    Except ScheduleError Schedule := do
  s.validate_shift_time_changed shift_id time
  .ok { s with
        shifts := s.shifts.map (fun sh =>
          if sh.id = shift_id then (sh.change_time time).toOption.getD sh else sh)
        events := s.events ++ [.shiftTimeChanged shift_id time] }

/-- `Schedule::change_shift_status` (schedule.rs lines 110-123). -/
def change_shift_status (s : Schedule) (shift_id : Nat) (status : ShiftStatus) :
    Except ScheduleError Schedule := do
  s.validate_shift_status_changed shift_id status
  .ok { s with
        shifts := s.shifts.map (fun sh =>
          if sh.id = shift_id then (sh.change_status status).toOption.getD sh else sh)
        events := s.events ++ [.shiftStatusChanged shift_id status] }

/-- `Schedule::delete_shifts` (schedule.rs lines 125-134). NOTE: the
source's `retain(|shift| shift_ids.contains(&shift.id))` KEEPS the shifts
whose id is listed and removes all the others. -/
def delete_shifts (s : Schedule) (shift_ids : List Nat) :
    Except ScheduleError Schedule := do
  s.validate_shifts_deleted shift_ids
  .ok { s with
        shifts := s.shifts.filter (fun sh => sh.id ∈ shift_ids)
        events := s.events ++ [.shiftsDeleted shift_ids] }

/-- `Aggregation::validate` for Schedule (schedule.rs lines 227-243). -/
def validate (s : Schedule) (e : ScheduleEvent) : Except ScheduleError Unit :=
  match e with
  | .scheduleCreated _ _ => .ok ()
  | .scheduleDeleted id => s.validate_id id
  | .shiftAdded id sh => do
      s.validate_id id
      s.validate_shift_added sh
  | .shiftTimeChanged shift_id time => s.validate_shift_time_changed shift_id time
  | .shiftStatusChanged shift_id status =>
      s.validate_shift_status_changed shift_id status
  | .shiftsDeleted shift_ids => s.validate_shifts_deleted shift_ids

/-- `Aggregation::apply` for Schedule (schedule.rs lines 245-268). -/
def apply (s : Schedule) (e : ScheduleEvent) : Schedule :=
  match e with
  | .scheduleCreated id prostitute_id =>
      if s.id ≠ id then create id prostitute_id else s
  | .scheduleDeleted _ => s
  | .shiftAdded id sh =>
      if s.id = id then (s.add_shift sh).toOption.getD s else s
  | .shiftTimeChanged shift_id time =>
      (s.change_shift_time shift_id time).toOption.getD s
  | .shiftStatusChanged shift_id status =>
      (s.change_shift_status shift_id status).toOption.getD s
  | .shiftsDeleted shift_ids =>
      (s.delete_shifts shift_ids).toOption.getD s

/-- `Aggregation::clear`: empty the event queue. -/
def clear (s : Schedule) : Schedule := { s with events := [] }

/-- The source `PartialEq for Schedule` (schedule.rs lines 279-285):
id, prostitute_id and shifts; the event queue is ignored. -/
def eqv (a b : Schedule) : Prop := a.clear = b.clear

instance (a b : Schedule) : Decidable (eqv a b) := by
  unfold eqv; infer_instance

/-- Replay: feed a list of historical events through `apply`. -/
def replay (s : Schedule) (es : List ScheduleEvent) : Schedule :=
  es.foldl apply s

end Schedule

/-- The typed command methods of Schedule other than `create`. -/
inductive ScheduleCommand
  | addShift (sh : Shift)
  | changeShiftTime (shift_id : Nat) (time : TimeRange)
  | changeShiftStatus (shift_id : Nat) (status : ShiftStatus)
  | deleteShifts (shift_ids : List Nat)
  deriving Repr, DecidableEq

def Schedule.runCommand (s : Schedule) (c : ScheduleCommand) :
    Except ScheduleError Schedule :=
  match c with
  | .addShift sh => s.add_shift sh
  | .changeShiftTime shift_id time => s.change_shift_time shift_id time
  | .changeShiftStatus shift_id status => s.change_shift_status shift_id status
  | .deleteShifts ids => s.delete_shifts ids

def Schedule.runCommands (s : Schedule) (cs : List ScheduleCommand) :
    Except ScheduleError Schedule :=
  cs.foldlM Schedule.runCommand s

/-! ## Reservation aggregate (domain/core/reservation.rs) -/

/-- PriceUnit and Price (domain/core.rs). -/
inductive PriceUnit
  | OneTime | Hourly
  deriving Repr, DecidableEq

structure Price where
  amount : Money
  unit : PriceUnit
  deriving Repr, DecidableEq

/-- ReservationCustomer (reservation.rs lines 323-333). -/
inductive ReservationCustomer
  | Anonymous
  | Registered (id : Nat)
  | Unregistered (name phone : String)
  deriving Repr, DecidableEq

/-- ReservationDetail (reservation.rs lines 345-352). -/
structure ReservationDetail where
  id : Nat
  name : String
  quantity : Nat
  price : Price
  deriving Repr, DecidableEq

/-- ReservationEvent (reservation.rs lines 32-54). -/
inductive ReservationEvent
  | reservationCreated (id : Nat) (prostitute_ids : List Nat)
      (time : TimeRange) (customer : ReservationCustomer)
  | reservationDetailAdded (id : Nat) (detail : ReservationDetail)
  | reservationDetailDeleted (id : Nat) (detail_id : Nat)
  | reservationDeleted (id : Nat)
  deriving Repr, DecidableEq

/-- Reservation entity (reservation.rs lines 60-71). -/
structure Reservation where
  id : Nat
  prostitute_ids : List Nat
  time : TimeRange
  customer : ReservationCustomer
  details : List ReservationDetail
  events : List ReservationEvent
  deriving Repr, DecidableEq

/-- `Reservation::default()` (Range default is `0..0`, customer default is
Anonymous). -/
def Reservation.default : Reservation := ⟨0, [], ⟨0, 0⟩, .Anonymous, [], []⟩

inductive ReservationError
  | MismatchedId
  | NoProstitutes
  | InvalidTime
  | AnonymousNotAllowed
  | UnregisteredCustomerNameRequired
  | UnregisteredCustomerPhoneRequired
  | DuplicateDetail
  | DetailNotFound
  deriving Repr, DecidableEq

namespace Reservation

/-- `validate_prostitute_ids` (reservation.rs lines 172-177). -/
def validate_prostitute_ids (ids : List Nat) : Except ReservationError Unit :=
  if ids.isEmpty then .error .NoProstitutes else .ok ()

/-- `validate_time` (reservation.rs lines 179-184). -/
def validate_time (time : TimeRange) : Except ReservationError Unit :=
  if time.start ≥ time.stop then .error .InvalidTime else .ok ()

/-- `validate_customer` (reservation.rs lines 186-200). -/
def validate_customer (c : ReservationCustomer) : Except ReservationError Unit :=
  match c with
  | .Anonymous => .error .AnonymousNotAllowed
  | .Registered _ => .ok ()
  | .Unregistered name phone =>
      if name.isEmpty then .error .UnregisteredCustomerNameRequired
      else if phone.isEmpty then .error .UnregisteredCustomerPhoneRequired
      else .ok ()

/-- `validate_created` (reservation.rs lines 144-153). -/
def validate_created (ids : List Nat) (time : TimeRange)
    (customer : ReservationCustomer) : Except ReservationError Unit := do
  validate_prostitute_ids ids
  validate_time time
  validate_customer customer

/-- `validate_id` (reservation.rs lines 137-142). -/
def validate_id (s : Reservation) (id : Nat) : Except ReservationError Unit :=
  if s.id = id then .ok () else .error .MismatchedId

/-- `validate_detail_added` (reservation.rs lines 155-160). -/
def validate_detail_added (s : Reservation) (d : ReservationDetail) :
    Except ReservationError Unit :=
  if s.details.any (fun x => x.id = d.id) then .error .DuplicateDetail else .ok ()

/-- `validate_detail_deleted` (reservation.rs lines 162-170). -/
def validate_detail_deleted (s : Reservation) (detail_id : Nat) :
    Except ReservationError Unit :=
  if s.details.any (fun x => x.id = detail_id) then .ok ()
  else .error .DetailNotFound

/-- `Reservation::create` (reservation.rs lines 74-95). -/
def create (id : Nat) (prostitute_ids : List Nat) (time : TimeRange)
    (customer : ReservationCustomer) : Except ReservationError Reservation := do
  validate_created prostitute_ids time customer
  .ok { id := id
        prostitute_ids := prostitute_ids
        time := time
        customer := customer
        details := []
        events := [.reservationCreated id prostitute_ids time customer] }

/-- `Reservation::add_detail` (reservation.rs lines 97-105). -/
def add_detail (s : Reservation) (detail : ReservationDetail) :
    Except ReservationError Reservation := do
  s.validate_detail_added detail
  .ok { s with
        details := s.details ++ [detail]
        events := s.events ++ [.reservationDetailAdded s.id detail] }

/-- `Reservation::delete_detail` (reservation.rs lines 107-119). -/
def delete_detail (s : Reservation) (detail_id : Nat) :
    Except ReservationError Reservation := do
  s.validate_detail_deleted detail_id
  .ok { s with
        details := s.details.filter (fun d => d.id ≠ detail_id)
        events := s.events ++ [.reservationDetailDeleted s.id detail_id] }

/-- `Aggregation::validate` for Reservation (reservation.rs lines
217-240). -/
def validate (s : Reservation) (e : ReservationEvent) :
    Except ReservationError Unit :=
  match e with
  | .reservationCreated _ ids time customer => validate_created ids time customer
  | .reservationDetailAdded id detail => do
      s.validate_id id
      s.validate_detail_added detail
  | .reservationDetailDeleted id detail_id => do
      s.validate_id id
      s.validate_detail_deleted detail_id
  | .reservationDeleted id => s.validate_id id

/-- `Aggregation::apply` for Reservation (reservation.rs lines 242-268). -/
def apply (s : Reservation) (e : ReservationEvent) : Reservation :=
  match e with
  | .reservationCreated id ids time customer =>
      if s.id ≠ id then
        match create id ids time customer with
        | .ok entity => entity
        | .error _ => s
      else s
  | .reservationDetailAdded id detail =>
      if s.id = id then (s.add_detail detail).toOption.getD s else s
  | .reservationDetailDeleted id detail_id =>
      if s.id = id then (s.delete_detail detail_id).toOption.getD s else s
  | .reservationDeleted _ => s

/-- `Aggregation::clear`: empty the event queue. -/
def clear (s : Reservation) : Reservation := { s with events := [] }

/-- Source `PartialEq for Reservation` (reservation.rs lines 279-287):
all fields except the event queue. -/
def eqv (a b : Reservation) : Prop := a.clear = b.clear

instance (a b : Reservation) : Decidable (eqv a b) := by
  unfold eqv; infer_instance

def replay (s : Reservation) (es : List ReservationEvent) : Reservation :=
  es.foldl apply s

end Reservation

inductive ReservationCommand
  | addDetail (detail : ReservationDetail)
  | deleteDetail (detail_id : Nat)
  deriving Repr, DecidableEq

def Reservation.runCommand (s : Reservation) (c : ReservationCommand) :
    Except ReservationError Reservation :=
  match c with
  | .addDetail d => s.add_detail d
  | .deleteDetail i => s.delete_detail i

def Reservation.runCommands (s : Reservation) (cs : List ReservationCommand) :
    Except ReservationError Reservation :=
  cs.foldlM Reservation.runCommand s

/-! ## Media aggregate (domain/core/media.rs)

`Media::validate_created` sniffs the byte content with the external
`image` and `mp4parse` crates (out of scope per the specification). The
whole recognizer is abstracted as a parameter `sniff : List Nat → Option
Mime` returning the derived mime on success; everything in the repository
is embedded faithfully around it. -/

/-- Mime (domain/core.rs): a parsed media type; modelled by its textual
form. -/
structure Mime where
  text : String
  deriving Repr, DecidableEq

/-- `Mime::default()` is `*/*`. -/
def Mime.default : Mime := ⟨"*/*"⟩

/-- MediaEvent (media.rs lines 36-46). -/
inductive MediaEvent
  | mediaCreated (id : Nat) (mime : Mime) (data : List Nat)
  | mediaDeleted (id : Nat)
  deriving Repr, DecidableEq

/-- Media entity (media.rs lines 53-61). -/
structure Media where
  id : Nat
  mime : Mime
  data : List Nat
  events : List MediaEvent
  deriving Repr, DecidableEq

def Media.default : Media := ⟨0, Mime.default, [], []⟩

inductive MediaError
  | MismatchedId
  | DataIsEmpty
  | UnsupportedFormat
  deriving Repr, DecidableEq

namespace Media

/-- `validate_created` (media.rs lines 94-140) via the abstract
recognizer: `UnsupportedFormat` when the content is not recognized. -/
def validate_created (sniff : List Nat → Option Mime) (data : List Nat) :
    Except MediaError Mime :=
  match sniff data with
  | some mime => .ok mime
  | none => .error .UnsupportedFormat

/-- `validate_id` (media.rs lines 87-92). -/
def validate_id (s : Media) (id : Nat) : Except MediaError Unit :=
  if s.id = id then .ok () else .error .MismatchedId

/-- `Media::create` (media.rs lines 64-77): the mime is derived from the
content, and both go into the `MediaCreated` event. -/
def create (sniff : List Nat → Option Mime) (id : Nat) (data : List Nat) :
    Except MediaError Media := do
  let mime ← validate_created sniff data
  .ok { id := id
        mime := mime
        data := data
        events := [.mediaCreated id mime data] }

/-- `Aggregation::validate` for Media (media.rs lines 162-170). -/
def validate (sniff : List Nat → Option Mime) (s : Media) (e : MediaEvent) :
    Except MediaError Unit :=
  match e with
  | .mediaCreated _ _ data =>
      match validate_created sniff data with
      | .ok _ => .ok ()
      | .error e => .error e
  | .mediaDeleted id => s.validate_id id

/-- `Aggregation::apply` for Media (media.rs lines 172-183): the event's
mime is DISCARDED and re-derived by `create` from the data. -/
def apply (sniff : List Nat → Option Mime) (s : Media) (e : MediaEvent) : Media :=
  match e with
  | .mediaCreated id _ data =>
      if s.id ≠ id then
        match create sniff id data with
        | .ok entity => entity
        | .error _ => s
      else s
  | .mediaDeleted _ => s

/-- `Aggregation::clear`: empty the event queue. -/
def clear (s : Media) : Media := { s with events := [] }

/-- Source `PartialEq for Media` (media.rs lines 194-198). -/
def eqv (a b : Media) : Prop := a.clear = b.clear

instance (a b : Media) : Decidable (eqv a b) := by
  unfold eqv; infer_instance

def replay (sniff : List Nat → Option Mime) (s : Media)
    (es : List MediaEvent) : Media :=
  es.foldl (apply sniff) s

end Media

/-! ## Replay fidelity machinery (P1)

For each aggregate: a step lemma (a successful command appends exactly one
event, and applying that event to any state that compares equal — queue
ignored — lands on a state that compares equal to the command's result),
then the induction along a command sequence. -/

/-- do-notation plumbing for `Except`. -/
theorem exbind_ok {ε α β : Type} (x : α) (f : α → Except ε β) :
    (Except.ok x >>= f) = f x := rfl

theorem exbind_err {ε α β : Type} (e : ε) (f : α → Except ε β) :
    ((Except.error e : Except ε α) >>= f) = Except.error e := rfl

theorem expure {ε α : Type} (x : α) : (pure x : Except ε α) = Except.ok x := rfl

theorem ExtraService.eqv_iff_clear (a b : ExtraService) :
    ExtraService.eqv a b ↔ a.clear = b.clear := by
  cases a; cases b
  simp [ExtraService.eqv, ExtraService.clear]

theorem ES_runCommand_step (s t s1 : ExtraService)
    (c : ExtraServiceCommand) (h : s.runCommand c = .ok s1)
    (ht : t.clear = s.clear) :
    ∃ e, s1.events = s.events ++ [e] ∧ (t.apply e).clear = s1.clear := by
  cases s with
  | mk sid sn sd sp sev =>
    cases t with
    | mk tid tn td tp tev =>
      simp only [ExtraService.clear, ExtraService.mk.injEq, and_true] at ht
      obtain ⟨h1, h2, h3, h4⟩ := ht
      subst h1; subst h2; subst h3; subst h4
      cases c with
      | changeName name =>
          by_cases hb : isBlank name
          · simp [ExtraService.runCommand, ExtraService.change_name,
              ExtraService.validate_name_changed, hb, exbind_ok, exbind_err] at h
          · simp only [ExtraService.runCommand, ExtraService.change_name,
              ExtraService.validate_name_changed, hb, if_false,
              Bool.false_eq_true, exbind_ok, exbind_err,
              Except.ok.injEq] at h
            refine ⟨.extraServiceNameChanged tid name, ?_, ?_⟩
            · rw [← h]
            · rw [← h]
              simp [ExtraService.apply, ExtraService.change_name,
                ExtraService.validate_name_changed, hb, exbind_ok,
                Except.toOption, ExtraService.clear]
      | changeDescription d =>
          simp only [ExtraService.runCommand, Except.ok.injEq] at h
          refine ⟨.extraServiceDescriptionChanged tid d, ?_, ?_⟩
          · rw [← h]; simp [ExtraService.change_description]
          · rw [← h]
            simp [ExtraService.apply, ExtraService.change_description,
              ExtraService.clear]
      | changePrice p =>
          simp only [ExtraService.runCommand, Except.ok.injEq] at h
          refine ⟨.extraServicePriceChanged tid p, ?_, ?_⟩
          · rw [← h]; simp [ExtraService.change_price]
          · rw [← h]
            simp [ExtraService.apply, ExtraService.change_price,
              ExtraService.clear]

theorem ES_runCommands_replay (cs : List ExtraServiceCommand) :
    ∀ s live t : ExtraService, s.runCommands cs = .ok live →
      t.clear = s.clear →
      ∃ es, live.events = s.events ++ es ∧ (t.replay es).clear = live.clear := by
  induction cs with
  | nil =>
      intro s live t h ht
      simp only [ExtraService.runCommands, List.foldlM, expure,
        Except.ok.injEq] at h
      subst h
      exact ⟨[], by simp, ht⟩
  | cons c rest ih =>
      intro s live t h ht
      simp only [ExtraService.runCommands, List.foldlM] at h
      cases hc : s.runCommand c with
      | error e => rw [hc] at h; simp [exbind_err] at h
      | ok s1 =>
          rw [hc, exbind_ok] at h
          obtain ⟨e, hev, happ⟩ := ES_runCommand_step s t s1 c hc ht
          obtain ⟨es, hev2, hrep⟩ := ih s1 live (t.apply e) h happ
          refine ⟨e :: es, ?_, ?_⟩
          · rw [hev2, hev]; simp
          · exact hrep

theorem S_runCommand_step (s t s1 : Schedule)
    (c : ScheduleCommand) (h : s.runCommand c = .ok s1)
    (ht : t.clear = s.clear) :
    ∃ e, s1.events = s.events ++ [e] ∧ (t.apply e).clear = s1.clear := by
  cases s with
  | mk sid spid ssh sev =>
    cases t with
    | mk tid tpid tsh tev =>
      simp only [Schedule.clear, Schedule.mk.injEq, and_true] at ht
      obtain ⟨h1, h2, h3⟩ := ht
      subst h1; subst h2; subst h3
      cases c with
      | addShift sh =>
          by_cases hdup : tsh.any (fun sh2 => sh2.id = sh.id)
          · simp [Schedule.runCommand, Schedule.add_shift,
              Schedule.validate_shift_added, Schedule.validate_duplicate_shift,
              hdup, exbind_ok, exbind_err] at h
          · by_cases hov : tsh.any (fun sh2 => decide (Schedule.overlap sh2.time sh.time))
            · simp [Schedule.runCommand, Schedule.add_shift,
                Schedule.validate_shift_added, Schedule.validate_duplicate_shift,
                Schedule.validate_overlapping_shift, hdup, hov,
                exbind_ok, exbind_err] at h
            · simp only [Schedule.runCommand, Schedule.add_shift,
                Schedule.validate_shift_added, Schedule.validate_duplicate_shift,
                Schedule.validate_overlapping_shift, hdup, hov,
                Bool.false_eq_true, if_false, exbind_ok, exbind_err,
                Except.ok.injEq] at h
              refine ⟨.shiftAdded tid sh, ?_, ?_⟩
              · rw [← h]
              · rw [← h]
                simp [Schedule.apply, Schedule.add_shift,
                  Schedule.validate_shift_added, Schedule.validate_duplicate_shift,
                  Schedule.validate_overlapping_shift, hdup, hov, exbind_ok,
                  Except.toOption, Schedule.clear]
      | changeShiftTime shift_id time =>
          cases hv : Schedule.validate_shift_time_changed ⟨tid, tpid, tsh, sev⟩ shift_id time with
          | error e =>
              simp [Schedule.runCommand, Schedule.change_shift_time, hv,
                exbind_ok, exbind_err] at h
          | ok u =>
              have hv2 : Schedule.validate_shift_time_changed ⟨tid, tpid, tsh, tev⟩ shift_id time = .ok u := hv
              simp only [Schedule.runCommand, Schedule.change_shift_time, hv,
                exbind_ok, Except.ok.injEq] at h
              refine ⟨.shiftTimeChanged shift_id time, ?_, ?_⟩
              · rw [← h]
              · rw [← h]
                simp [Schedule.apply, Schedule.change_shift_time, hv2,
                  exbind_ok, Except.toOption, Schedule.clear]
      | changeShiftStatus shift_id status =>
          cases hv : Schedule.validate_shift_status_changed ⟨tid, tpid, tsh, sev⟩ shift_id status with
          | error e =>
              simp [Schedule.runCommand, Schedule.change_shift_status, hv,
                exbind_ok, exbind_err] at h
          | ok u =>
              have hv2 : Schedule.validate_shift_status_changed ⟨tid, tpid, tsh, tev⟩ shift_id status = .ok u := hv
              simp only [Schedule.runCommand, Schedule.change_shift_status, hv,
                exbind_ok, Except.ok.injEq] at h
              refine ⟨.shiftStatusChanged shift_id status, ?_, ?_⟩
              · rw [← h]
              · rw [← h]
                simp [Schedule.apply, Schedule.change_shift_status, hv2,
                  exbind_ok, Except.toOption, Schedule.clear]
      | deleteShifts ids =>
          by_cases hfind : tsh.any (fun sh => decide (sh.id ∈ ids))
          · simp only [Schedule.runCommand, Schedule.delete_shifts,
              Schedule.validate_shifts_deleted, hfind, if_true, exbind_ok,
              Except.ok.injEq] at h
            refine ⟨.shiftsDeleted ids, ?_, ?_⟩
            · rw [← h]
            · rw [← h]
              simp [Schedule.apply, Schedule.delete_shifts,
                Schedule.validate_shifts_deleted, hfind, exbind_ok,
                Except.toOption, Schedule.clear]
          · simp [Schedule.runCommand, Schedule.delete_shifts,
              Schedule.validate_shifts_deleted, hfind, exbind_ok,
              exbind_err] at h

theorem S_runCommands_replay (cs : List ScheduleCommand) :
    ∀ s live t : Schedule, s.runCommands cs = .ok live →
      t.clear = s.clear →
      ∃ es, live.events = s.events ++ es ∧ (t.replay es).clear = live.clear := by
  induction cs with
  | nil =>
      intro s live t h ht
      simp only [Schedule.runCommands, List.foldlM, expure, Except.ok.injEq] at h
      subst h
      exact ⟨[], by simp, ht⟩
  | cons c rest ih =>
      intro s live t h ht
      simp only [Schedule.runCommands, List.foldlM] at h
      cases hc : s.runCommand c with
      | error e => rw [hc] at h; simp [exbind_err] at h
      | ok s1 =>
          rw [hc, exbind_ok] at h
          obtain ⟨e, hev, happ⟩ := S_runCommand_step s t s1 c hc ht
          obtain ⟨es, hev2, hrep⟩ := ih s1 live (t.apply e) h happ
          refine ⟨e :: es, ?_, ?_⟩
          · rw [hev2, hev]; simp
          · exact hrep

theorem R_runCommand_step (s t s1 : Reservation)
    (c : ReservationCommand) (h : s.runCommand c = .ok s1)
    (ht : t.clear = s.clear) :
    ∃ e, s1.events = s.events ++ [e] ∧ (t.apply e).clear = s1.clear := by
  cases s with
  | mk sid spid stime scust sdet sev =>
    cases t with
    | mk tid tpid ttime tcust tdet tev =>
      simp only [Reservation.clear, Reservation.mk.injEq, and_true] at ht
      obtain ⟨h1, h2, h3, h4, h5⟩ := ht
      subst h1; subst h2; subst h3; subst h4; subst h5
      cases c with
      | addDetail d =>
          by_cases hdup : tdet.any (fun x => x.id = d.id)
          · simp [Reservation.runCommand, Reservation.add_detail,
              Reservation.validate_detail_added, hdup, exbind_ok, exbind_err] at h
          · simp only [Reservation.runCommand, Reservation.add_detail,
              Reservation.validate_detail_added, hdup, Bool.false_eq_true,
              if_false, exbind_ok, Except.ok.injEq] at h
            refine ⟨.reservationDetailAdded tid d, ?_, ?_⟩
            · rw [← h]
            · rw [← h]
              simp [Reservation.apply, Reservation.add_detail,
                Reservation.validate_detail_added, hdup, exbind_ok,
                Except.toOption, Reservation.clear]
      | deleteDetail i =>
          by_cases hfind : tdet.any (fun x => x.id = i)
          · simp only [Reservation.runCommand, Reservation.delete_detail,
              Reservation.validate_detail_deleted, hfind, if_true, exbind_ok,
              Except.ok.injEq] at h
            refine ⟨.reservationDetailDeleted tid i, ?_, ?_⟩
            · rw [← h]
            · rw [← h]
              simp [Reservation.apply, Reservation.delete_detail,
                Reservation.validate_detail_deleted, hfind, exbind_ok,
                Except.toOption, Reservation.clear]
          · simp [Reservation.runCommand, Reservation.delete_detail,
              Reservation.validate_detail_deleted, hfind, exbind_ok,
              exbind_err] at h

/-- Applying a `ProstituteVideoChanged` event whose id matches the state
never finishes, for any amount of fuel: `apply` calls `change_video`,
which calls `apply` on the same event. -/
theorem Prostitute.applyF_video_self (fuel : Nat) :
    ∀ (s : Prostitute) (v : Option Nat),
      Prostitute.applyF fuel s (.prostituteVideoChanged s.id v) = none := by
  induction fuel with
  | zero =>
      intro s v
      simp [Prostitute.applyF, Prostitute.applyBody]
  | succ n ih =>
      intro s v
      simp [Prostitute.applyF, Prostitute.applyBody, ih]

/-- `Prostitute::change_video` never returns, for any fuel. -/
theorem Prostitute.change_videoF_none (fuel : Nat) (s : Prostitute)
    (v : Option Nat) : Prostitute.change_videoF fuel s v = none := by
  simp [Prostitute.change_videoF, Prostitute.applyF_video_self]

/-- Option-monad plumbing. -/
theorem obind_some {α β : Type} (x : α) (f : α → Option β) :
    (some x >>= f) = f x := rfl

theorem obind_none {α β : Type} (f : α → Option β) :
    ((none : Option α) >>= f) = none := rfl

theorem Prostitute.apply1_def (t : Prostitute) (e : ProstituteEvent) :
    Prostitute.apply1 t e = Prostitute.applyBody (Prostitute.applyF 0) t e := rfl

theorem P_runCommand_step (fuel : Nat) (s t s1 : Prostitute)
    (c : ProstituteCommand) (h : Prostitute.runCommand fuel s c = some (.ok s1))
    (ht : t.clear = s.clear) :
    ∃ e, s1.events = s.events ++ [e] ∧
      (Prostitute.apply1 t e).map Prostitute.clear = some s1.clear := by
  cases s with
  | mk sid snm scp spr sms sfg sbl sbd sqs sim svd slv sev =>
    cases t with
    | mk tid tnm tcp tpr tms tfg tbl tbd tqs tim tvd tlv tev =>
      simp only [Prostitute.clear, Prostitute.mk.injEq, and_true] at ht
      obtain ⟨h1, h2, h3, h4, h5, h6, h7, h8, h9, h10, h11, h12⟩ := ht
      subst h1; subst h2; subst h3; subst h4; subst h5; subst h6; subst h7
      subst h8; subst h9; subst h10; subst h11; subst h12
      cases c with
      | rejoin =>
          cases hlv : tlv with
          | true =>
              simp [Prostitute.runCommand, Prostitute.rejoin,
                Prostitute.validate_rejoined, hlv, exbind_ok, exbind_err] at h
          | false =>
              simp only [Prostitute.runCommand, Prostitute.rejoin,
                Prostitute.validate_rejoined, hlv, Bool.false_eq_true, if_false,
                exbind_ok, Option.some.injEq, Except.ok.injEq] at h
              refine ⟨.prostituteLeaved tid, by rw [← h], ?_⟩
              rw [← h]
              simp [Prostitute.apply1_def, Prostitute.applyBody, Prostitute.leave,
                Prostitute.validate_leaved, hlv, exbind_ok, exbind_err,
                Except.toOption, Prostitute.clear]
      | leave =>
          cases hlv : tlv with
          | false =>
              simp [Prostitute.runCommand, Prostitute.leave,
                Prostitute.validate_leaved, hlv, exbind_ok, exbind_err] at h
          | true =>
              simp only [Prostitute.runCommand, Prostitute.leave,
                Prostitute.validate_leaved, hlv, if_true,
                exbind_ok, Option.some.injEq, Except.ok.injEq] at h
              refine ⟨.prostituteLeaved tid, by rw [← h], ?_⟩
              rw [← h]
              simp [Prostitute.apply1_def, Prostitute.applyBody, Prostitute.leave,
                Prostitute.validate_leaved, hlv, exbind_ok,
                Except.toOption, Prostitute.clear]
      | changeName name =>
          by_cases hb : isBlank name
          · simp [Prostitute.runCommand, Prostitute.change_name,
              Prostitute.validate_name, hb, exbind_ok, exbind_err] at h
          · simp only [Prostitute.runCommand, Prostitute.change_name,
              Prostitute.validate_name, hb, Bool.false_eq_true, if_false,
              exbind_ok, Option.some.injEq, Except.ok.injEq] at h
            refine ⟨.prostituteExtraServiceNameChanged tid name, by rw [← h], ?_⟩
            rw [← h]
            simp [Prostitute.apply1_def, Prostitute.applyBody,
              Prostitute.change_name, Prostitute.validate_name, hb, exbind_ok,
              Except.toOption, Prostitute.clear]
      | changeCatchphrase cp =>
          by_cases hb : isBlank cp
          · simp [Prostitute.runCommand, Prostitute.change_catchphrase,
              Prostitute.validate_catchphrase, hb, exbind_ok, exbind_err] at h
          · simp only [Prostitute.runCommand, Prostitute.change_catchphrase,
              Prostitute.validate_catchphrase, hb, Bool.false_eq_true, if_false,
              exbind_ok, Option.some.injEq, Except.ok.injEq] at h
            refine ⟨.prostituteCatchphraseChanged tid cp, by rw [← h], ?_⟩
            rw [← h]
            simp [Prostitute.apply1_def, Prostitute.applyBody,
              Prostitute.change_catchphrase, Prostitute.validate_catchphrase,
              hb, exbind_ok, Except.toOption, Prostitute.clear]
      | changeProfile p =>
          simp only [Prostitute.runCommand, Option.some.injEq,
            Except.ok.injEq] at h
          refine ⟨.prostituteProfileChanged tid p, ?_, ?_⟩
          · rw [← h]; simp [Prostitute.change_profile]
          · rw [← h]
            simp [Prostitute.apply1_def, Prostitute.applyBody,
              Prostitute.change_profile, Prostitute.clear]
      | changeMessage m =>
          simp only [Prostitute.runCommand, Option.some.injEq,
            Except.ok.injEq] at h
          refine ⟨.prostituteMessageChanged tid m, ?_, ?_⟩
          · rw [← h]; simp [Prostitute.change_message]
          · rw [← h]
            simp [Prostitute.apply1_def, Prostitute.applyBody,
              Prostitute.change_message, Prostitute.clear]
      | changeFigure f =>
          simp only [Prostitute.runCommand, Option.some.injEq,
            Except.ok.injEq] at h
          refine ⟨.prostituteFigureChanged tid f, ?_, ?_⟩
          · rw [← h]; simp [Prostitute.change_figure]
          · rw [← h]
            simp [Prostitute.apply1_def, Prostitute.applyBody,
              Prostitute.change_figure, Prostitute.clear]
      | changeBloodType b =>
          simp only [Prostitute.runCommand, Option.some.injEq,
            Except.ok.injEq] at h
          refine ⟨.prostituteBloodTypeChanged tid b, ?_, ?_⟩
          · rw [← h]; simp [Prostitute.change_blood_type]
          · rw [← h]
            simp [Prostitute.apply1_def, Prostitute.applyBody,
              Prostitute.change_blood_type, Prostitute.clear]
      | changeBirthday b =>
          simp only [Prostitute.runCommand, Option.some.injEq,
            Except.ok.injEq] at h
          refine ⟨.prostituteBirthdayChanged tid b, ?_, ?_⟩
          · rw [← h]; simp [Prostitute.change_birthday]
          · rw [← h]
            simp [Prostitute.apply1_def, Prostitute.applyBody,
              Prostitute.change_birthday, Prostitute.clear]
      | changeQuestions qs =>
          simp only [Prostitute.runCommand, Option.some.injEq,
            Except.ok.injEq] at h
          refine ⟨.prostituteQuestionsChanged tid qs, ?_, ?_⟩
          · rw [← h]; simp [Prostitute.change_questions]
          · rw [← h]
            simp [Prostitute.apply1_def, Prostitute.applyBody,
              Prostitute.change_questions, Prostitute.clear]
      | addQuestion q =>
          simp only [Prostitute.runCommand, Option.some.injEq,
            Except.ok.injEq] at h
          refine ⟨.prostituteQuestionAdded tid q, ?_, ?_⟩
          · rw [← h]; simp [Prostitute.add_question]
          · rw [← h]
            simp [Prostitute.apply1_def, Prostitute.applyBody,
              Prostitute.add_question, Prostitute.clear]
      | deleteQuestion i =>
          by_cases hi : i ≥ tqs.length
          · simp [Prostitute.runCommand, Prostitute.delete_question,
              Prostitute.validate_question_deleted,
              Prostitute.validate_question_not_found, hi, exbind_ok,
              exbind_err] at h
          · simp only [Prostitute.runCommand, Prostitute.delete_question,
              Prostitute.validate_question_deleted,
              Prostitute.validate_question_not_found, hi, if_false,
              exbind_ok, Option.some.injEq, Except.ok.injEq] at h
            refine ⟨.prostituteQuestionDeleted tid i, by rw [← h], ?_⟩
            rw [← h]
            simp [Prostitute.apply1_def, Prostitute.applyBody,
              Prostitute.delete_question, Prostitute.validate_question_deleted,
              Prostitute.validate_question_not_found, hi, exbind_ok,
              Except.toOption, Prostitute.clear]
      | swapQuestion a b =>
          by_cases ha : a ≥ tqs.length
          · simp [Prostitute.runCommand, Prostitute.swap_question,
              Prostitute.validate_question_swapped,
              Prostitute.validate_question_not_found, ha, exbind_ok,
              exbind_err] at h
          · by_cases hb : b ≥ tqs.length
            · simp [Prostitute.runCommand, Prostitute.swap_question,
                Prostitute.validate_question_swapped,
                Prostitute.validate_question_not_found, ha, hb, exbind_ok,
                exbind_err] at h
            · by_cases hab : a = b
              · simp [Prostitute.runCommand, Prostitute.swap_question,
                  Prostitute.validate_question_swapped,
                  Prostitute.validate_question_not_found, ha, hb, hab,
                  exbind_ok, exbind_err] at h
              · simp only [Prostitute.runCommand, Prostitute.swap_question,
                  Prostitute.validate_question_swapped,
                  Prostitute.validate_question_not_found, ha, hb, hab,
                  if_false, exbind_ok, Option.some.injEq, Except.ok.injEq] at h
                refine ⟨.prostituteQuestionSwapped tid a b, by rw [← h], ?_⟩
                rw [← h]
                simp [Prostitute.apply1_def, Prostitute.applyBody,
                  Prostitute.swap_question, Prostitute.validate_question_swapped,
                  Prostitute.validate_question_not_found, ha, hb, hab,
                  exbind_ok, Except.toOption, Prostitute.clear]
      | changeImages ms =>
          simp only [Prostitute.runCommand, Option.some.injEq,
            Except.ok.injEq] at h
          refine ⟨.prostituteImagesChanged tid ms, ?_, ?_⟩
          · rw [← h]; simp [Prostitute.change_images]
          · rw [← h]
            simp [Prostitute.apply1_def, Prostitute.applyBody,
              Prostitute.change_images, Prostitute.clear]
      | addImage m =>
          by_cases hm : m ∈ tim
          · simp [Prostitute.runCommand, Prostitute.add_image,
              Prostitute.validate_image_added, hm, exbind_ok, exbind_err] at h
          · simp only [Prostitute.runCommand, Prostitute.add_image,
              Prostitute.validate_image_added, hm, if_false, exbind_ok,
              Option.some.injEq, Except.ok.injEq] at h
            refine ⟨.prostituteImageAdded tid m, by rw [← h], ?_⟩
            rw [← h]
            simp [Prostitute.apply1_def, Prostitute.applyBody,
              Prostitute.add_image, Prostitute.validate_image_added, hm,
              exbind_ok, Except.toOption, Prostitute.clear]
      | deleteImage m =>
          by_cases hm : m ∈ tim
          · simp only [Prostitute.runCommand, Prostitute.delete_image,
              Prostitute.validate_image_deleted,
              Prostitute.validate_image_not_found, hm, if_true, exbind_ok,
              Option.some.injEq, Except.ok.injEq] at h
            refine ⟨.prostituteImageDeleted tid m, by rw [← h], ?_⟩
            rw [← h]
            simp [Prostitute.apply1_def, Prostitute.applyBody,
              Prostitute.delete_image, Prostitute.validate_image_deleted,
              Prostitute.validate_image_not_found, hm, exbind_ok,
              Except.toOption, Prostitute.clear]
          · simp [Prostitute.runCommand, Prostitute.delete_image,
              Prostitute.validate_image_deleted,
              Prostitute.validate_image_not_found, hm, exbind_ok,
              exbind_err] at h
      | swapImage a b =>
          by_cases ha : a ∈ tim
          · by_cases hb : b ∈ tim
            · by_cases hab : a = b
              · simp [Prostitute.runCommand, Prostitute.swap_image,
                  Prostitute.validate_image_swapped,
                  Prostitute.validate_image_not_found, ha, hb, hab,
                  exbind_ok, exbind_err] at h
              · simp only [Prostitute.runCommand, Prostitute.swap_image,
                  Prostitute.validate_image_swapped,
                  Prostitute.validate_image_not_found, ha, hb, hab,
                  if_true, if_false, exbind_ok, Option.some.injEq,
                  Except.ok.injEq] at h
                refine ⟨.prostituteImageSwapped tid a b, by rw [← h], ?_⟩
                rw [← h]
                simp [Prostitute.apply1_def, Prostitute.applyBody,
                  Prostitute.swap_image, Prostitute.validate_image_swapped,
                  Prostitute.validate_image_not_found, ha, hb, hab,
                  exbind_ok, Except.toOption, Prostitute.clear]
            · simp [Prostitute.runCommand, Prostitute.swap_image,
                Prostitute.validate_image_swapped,
                Prostitute.validate_image_not_found, ha, hb, exbind_ok,
                exbind_err] at h
          · simp [Prostitute.runCommand, Prostitute.swap_image,
              Prostitute.validate_image_swapped,
              Prostitute.validate_image_not_found, ha, exbind_ok,
              exbind_err] at h
      | changeVideo v =>
          simp [Prostitute.runCommand, Prostitute.change_videoF_none] at h

theorem P_runCommands_replay (fuel : Nat) (cs : List ProstituteCommand) :
    ∀ s live t : Prostitute,
      Prostitute.runCommands fuel s cs = some (.ok live) →
      t.clear = s.clear →
      ∃ es, live.events = s.events ++ es ∧
        ∃ r, Prostitute.replay t es = some r ∧ r.clear = live.clear := by
  induction cs with
  | nil =>
      intro s live t h ht
      simp only [Prostitute.runCommands, Option.some.injEq,
        Except.ok.injEq] at h
      subst h
      exact ⟨[], by simp, t, rfl, ht⟩
  | cons c rest ih =>
      intro s live t h ht
      simp only [Prostitute.runCommands] at h
      cases hc : Prostitute.runCommand fuel s c with
      | none => rw [hc] at h; exact Option.noConfusion h
      | some r0 =>
          cases r0 with
          | error e =>
              rw [hc] at h
              exact Except.noConfusion (Option.some.inj h)
          | ok s1 =>
              rw [hc] at h
              obtain ⟨e, hev, hmap⟩ :=
                P_runCommand_step fuel s t s1 c hc ht
              cases happ : Prostitute.apply1 t e with
              | none => rw [happ] at hmap; simp at hmap
              | some t2 =>
                  rw [happ] at hmap
                  simp only [Option.map_some', Option.some.injEq] at hmap
                  obtain ⟨es, hev2, r, hrep, hrcl⟩ := ih s1 live t2 h hmap
                  refine ⟨e :: es, ?_, r, ?_, hrcl⟩
                  · rw [hev2, hev]; simp
                  · simpa [Prostitute.replay, List.foldlM, happ, obind_some]
                      using hrep

theorem R_runCommands_replay (cs : List ReservationCommand) :
    ∀ s live t : Reservation, s.runCommands cs = .ok live →
      t.clear = s.clear →
      ∃ es, live.events = s.events ++ es ∧ (t.replay es).clear = live.clear := by
  induction cs with
  | nil =>
      intro s live t h ht
      simp only [Reservation.runCommands, List.foldlM, expure, Except.ok.injEq] at h
      subst h
      exact ⟨[], by simp, ht⟩
  | cons c rest ih =>
      intro s live t h ht
      simp only [Reservation.runCommands, List.foldlM] at h
      cases hc : s.runCommand c with
      | error e => rw [hc] at h; simp [exbind_err] at h
      | ok s1 =>
          rw [hc, exbind_ok] at h
          obtain ⟨e, hev, happ⟩ := R_runCommand_step s t s1 c hc ht
          obtain ⟨es, hev2, hrep⟩ := ih s1 live (t.apply e) h happ
          refine ⟨e :: es, ?_, ?_⟩
          · rw [hev2, hev]; simp
          · exact hrep

/-! ## Replay fidelity, per aggregate, for a nonzero creation id. -/

theorem ES_replay_fidelity (n : Nat) (nm d : String) (p : Money)
    (cs : List ExtraServiceCommand) (e0 live : ExtraService)
    (hn : n ≠ 0) (hc : ExtraService.create n nm d p = .ok e0)
    (hr : e0.runCommands cs = .ok live) :
    ExtraService.eqv ((ExtraService.replay ExtraService.default live.events).clear)
      live.clear := by
  have h0 : ¬ (0 : Nat) = n := fun hh => hn hh.symm
  by_cases hb : isBlank nm
  · simp [ExtraService.create, ExtraService.validate_created,
      ExtraService.validate_name_changed, hb, exbind_ok, exbind_err] at hc
  · have hev0 : e0.events = [.extraServiceCreated n nm d p] := by
      simp only [ExtraService.create, ExtraService.validate_created,
        ExtraService.validate_name_changed, hb, Bool.false_eq_true, if_false,
        exbind_ok, Except.ok.injEq] at hc
      rw [← hc]
    have happ : ExtraService.apply ExtraService.default
        (.extraServiceCreated n nm d p) = e0 := by
      simp [ExtraService.apply, ExtraService.default, h0, hc]
    obtain ⟨es, hev, hrep⟩ :=
      ES_runCommands_replay cs e0 live e0 hr rfl
    rw [hev, hev0]
    have hfold : ExtraService.replay ExtraService.default
        (ExtraServiceEvent.extraServiceCreated n nm d p :: es) =
        ExtraService.replay e0 es := by
      simp [ExtraService.replay, happ]
    rw [List.singleton_append, hfold, ExtraService.eqv_iff_clear]
    show ((e0.replay es).clear).clear = (live.clear).clear
    rw [hrep]

theorem P_replay_fidelity (fuel n : Nat)
    (nm cp pr ms : String) (fg : Figure) (bl : Option BloodType)
    (bd : Option Birthday) (qs : List Question) (im : List Nat)
    (vd : Option Nat) (cs : List ProstituteCommand) (e0 live : Prostitute)
    (hn : n ≠ 0)
    (hc : Prostitute.join n nm cp pr ms fg bl bd qs im vd = .ok e0)
    (hr : Prostitute.runCommands fuel e0 cs = some (.ok live)) :
    ∃ r, Prostitute.replay Prostitute.default live.events = some r ∧
      Prostitute.eqv r.clear live.clear := by
  have h0 : ¬ (0 : Nat) = n := fun hh => hn hh.symm
  have hev0 : e0.events = [.prostituteJoined n nm cp pr ms fg bl bd qs im vd] := by
    unfold Prostitute.join at hc
    cases hv : Prostitute.validate_created nm cp im with
    | error e => rw [hv] at hc; exact Except.noConfusion hc
    | ok u =>
        rw [hv, exbind_ok] at hc
        cases hc
        rfl
  have happ : Prostitute.apply1 Prostitute.default
      (.prostituteJoined n nm cp pr ms fg bl bd qs im vd) = some e0 := by
    rw [Prostitute.apply1_def]
    simp [Prostitute.applyBody, Prostitute.default, h0, hc]
  obtain ⟨es, hev, r, hrep, hrcl⟩ :=
    P_runCommands_replay fuel cs e0 live e0 hr rfl
  rw [hev, hev0]
  refine ⟨r, ?_, ?_⟩
  · simpa [Prostitute.replay, List.foldlM, happ, obind_some] using hrep
  · show r.clear.clear = live.clear.clear
    rw [hrcl]

theorem S_replay_fidelity (n pid : Nat) (cs : List ScheduleCommand)
    (live : Schedule) (hn : n ≠ 0)
    (hr : (Schedule.create n pid).runCommands cs = .ok live) :
    Schedule.eqv ((Schedule.replay Schedule.default live.events).clear)
      live.clear := by
  have h0 : ¬ (0 : Nat) = n := fun hh => hn hh.symm
  have happ : Schedule.apply Schedule.default (.scheduleCreated n pid) =
      Schedule.create n pid := by
    simp [Schedule.apply, Schedule.default, h0]
  obtain ⟨es, hev, hrep⟩ :=
    S_runCommands_replay cs (Schedule.create n pid) live
      (Schedule.create n pid) hr rfl
  have hev0 : (Schedule.create n pid).events = [.scheduleCreated n pid] := rfl
  rw [hev, hev0]
  have hfold : Schedule.replay Schedule.default
      (ScheduleEvent.scheduleCreated n pid :: es) =
      Schedule.replay (Schedule.create n pid) es := by
    simp [Schedule.replay, happ]
  rw [List.singleton_append, hfold]
  show ((Schedule.create n pid).replay es).clear.clear = live.clear.clear
  rw [hrep]

theorem R_replay_fidelity (n : Nat) (pids : List Nat)
    (time : TimeRange) (customer : ReservationCustomer)
    (cs : List ReservationCommand) (e0 live : Reservation) (hn : n ≠ 0)
    (hc : Reservation.create n pids time customer = .ok e0)
    (hr : e0.runCommands cs = .ok live) :
    Reservation.eqv ((Reservation.replay Reservation.default live.events).clear)
      live.clear := by
  have h0 : ¬ (0 : Nat) = n := fun hh => hn hh.symm
  have hev0 : e0.events = [.reservationCreated n pids time customer] := by
    unfold Reservation.create at hc
    cases hv : Reservation.validate_created pids time customer with
    | error e => rw [hv] at hc; exact Except.noConfusion hc
    | ok u =>
        rw [hv, exbind_ok] at hc
        cases hc
        rfl
  have happ : Reservation.apply Reservation.default
      (.reservationCreated n pids time customer) = e0 := by
    simp [Reservation.apply, Reservation.default, h0, hc]
  obtain ⟨es, hev, hrep⟩ :=
    R_runCommands_replay cs e0 live e0 hr rfl
  rw [hev, hev0]
  have hfold : Reservation.replay Reservation.default
      (ReservationEvent.reservationCreated n pids time customer :: es) =
      Reservation.replay e0 es := by
    simp [Reservation.replay, happ]
  rw [List.singleton_append, hfold]
  show (e0.replay es).clear.clear = live.clear.clear
  rw [hrep]

theorem M_replay_fidelity (sniff : List Nat → Option Mime) (n : Nat)
    (data : List Nat) (live : Media) (hn : n ≠ 0)
    (hc : Media.create sniff n data = .ok live) :
    Media.eqv ((Media.replay sniff Media.default live.events).clear)
      live.clear := by
  have h0 : ¬ (0 : Nat) = n := fun hh => hn hh.symm
  cases hv : Media.validate_created sniff data with
  | error e =>
      unfold Media.create at hc
      rw [hv] at hc
      exact Except.noConfusion hc
  | ok mime =>
      have hc2 := hc
      unfold Media.create at hc2
      rw [hv, exbind_ok] at hc2
      cases hc2
      have happ : Media.apply sniff Media.default (.mediaCreated n mime data) =
          { id := n
            mime := mime
            data := data
            events := [.mediaCreated n mime data] } := by
        simp [Media.apply, Media.default, h0, Media.create, hv, exbind_ok]
      show Media.eqv ((Media.replay sniff Media.default
        [.mediaCreated n mime data]).clear) _
      simp [Media.replay, happ, Media.eqv]

/-! ## Claim theorems -/

/-- Claim C1 (amended): for every aggregate and every sequence of successful
commands starting with the creation command, replaying the produced events
on a default-constructed aggregate and clearing the queue yields a value
equal (under the aggregate's equality, which ignores the queue) to the live
aggregate after the same clear — PROVIDED the externally supplied id is not
the default id value 0 (for id 0 the creation event is skipped on replay,
see the counterexample). -/
theorem claim_C1_replay_fidelity_nonzero_id :
    (∀ (n : Nat) (nm d : String) (p : Money) (cs : List ExtraServiceCommand)
        (e0 live : ExtraService), n ≠ 0 →
        ExtraService.create n nm d p = .ok e0 →
        e0.runCommands cs = .ok live →
        ExtraService.eqv
          ((ExtraService.replay ExtraService.default live.events).clear)
          live.clear) ∧
    (∀ (fuel n : Nat) (nm cp pr ms : String) (fg : Figure)
        (bl : Option BloodType) (bd : Option Birthday) (qs : List Question)
        (im : List Nat) (vd : Option Nat) (cs : List ProstituteCommand)
        (e0 live : Prostitute), n ≠ 0 →
        Prostitute.join n nm cp pr ms fg bl bd qs im vd = .ok e0 →
        Prostitute.runCommands fuel e0 cs = some (.ok live) →
        ∃ r, Prostitute.replay Prostitute.default live.events = some r ∧
          Prostitute.eqv r.clear live.clear) ∧
    (∀ (n pid : Nat) (cs : List ScheduleCommand) (live : Schedule), n ≠ 0 →
        (Schedule.create n pid).runCommands cs = .ok live →
        Schedule.eqv ((Schedule.replay Schedule.default live.events).clear)
          live.clear) ∧
    (∀ (n : Nat) (pids : List Nat) (time : TimeRange)
        (customer : ReservationCustomer) (cs : List ReservationCommand)
        (e0 live : Reservation), n ≠ 0 →
        Reservation.create n pids time customer = .ok e0 →
        e0.runCommands cs = .ok live →
        Reservation.eqv
          ((Reservation.replay Reservation.default live.events).clear)
          live.clear) ∧
    (∀ (sniff : List Nat → Option Mime) (n : Nat) (data : List Nat)
        (live : Media), n ≠ 0 →
        Media.create sniff n data = .ok live →
        Media.eqv ((Media.replay sniff Media.default live.events).clear)
          live.clear) :=
  ⟨fun n nm d p cs e0 live hn hc hr =>
      ES_replay_fidelity n nm d p cs e0 live hn hc hr,
   fun fuel n nm cp pr ms fg bl bd qs im vd cs e0 live hn hc hr =>
      P_replay_fidelity fuel n nm cp pr ms fg bl bd qs im vd cs
        e0 live hn hc hr,
   fun n pid cs live hn hr => S_replay_fidelity n pid cs live hn hr,
   fun n pids time customer cs e0 live hn hc hr =>
      R_replay_fidelity n pids time customer cs e0 live hn hc hr,
   fun sniff n data live hn hc =>
      M_replay_fidelity sniff n data live hn hc⟩

/-- Claim C1 witness: the amended replay-fidelity theorem applied to one
concrete creation per aggregate (with the empty command tail). -/
theorem claim_C1_replay_fidelity_nonzero_id_witness :
    ExtraService.eqv
      ((ExtraService.replay ExtraService.default
        (⟨30, "AF", "x", ⟨10000, .JPY⟩,
          [.extraServiceCreated 30 "AF" "x" ⟨10000, .JPY⟩]⟩ :
            ExtraService).events).clear)
      (ExtraService.clear ⟨30, "AF", "x", ⟨10000, .JPY⟩,
        [.extraServiceCreated 30 "AF" "x" ⟨10000, .JPY⟩]⟩) ∧
    (∃ r, Prostitute.replay Prostitute.default
        (⟨5, "n", "c", "", "", Figure.default, none, none, [], [], none,
          false, [.prostituteJoined 5 "n" "c" "" "" Figure.default none none
            [] [] none]⟩ : Prostitute).events = some r ∧
      Prostitute.eqv r.clear
        (Prostitute.clear ⟨5, "n", "c", "", "", Figure.default, none, none,
          [], [], none, false, [.prostituteJoined 5 "n" "c" "" ""
            Figure.default none none [] [] none]⟩)) ∧
    Schedule.eqv
      ((Schedule.replay Schedule.default (Schedule.create 4 6).events).clear)
      (Schedule.clear (Schedule.create 4 6)) ∧
    Reservation.eqv
      ((Reservation.replay Reservation.default
        (⟨8, [1], ⟨0, 1⟩, .Registered 2, [],
          [.reservationCreated 8 [1] ⟨0, 1⟩ (.Registered 2)]⟩ :
            Reservation).events).clear)
      (Reservation.clear ⟨8, [1], ⟨0, 1⟩, .Registered 2, [],
        [.reservationCreated 8 [1] ⟨0, 1⟩ (.Registered 2)]⟩) ∧
    Media.eqv
      ((Media.replay (fun _ => some ⟨"image/gif"⟩) Media.default
        (⟨9, ⟨"image/gif"⟩, [1, 2],
          [.mediaCreated 9 ⟨"image/gif"⟩ [1, 2]]⟩ : Media).events).clear)
      (Media.clear ⟨9, ⟨"image/gif"⟩, [1, 2],
        [.mediaCreated 9 ⟨"image/gif"⟩ [1, 2]]⟩) := by
  obtain ⟨hES, hP, hS, hR, hM⟩ := claim_C1_replay_fidelity_nonzero_id
  exact ⟨hES 30 "AF" "x" ⟨10000, .JPY⟩ [] _ _ (by decide) rfl rfl,
    hP 0 5 "n" "c" "" "" Figure.default none none [] [] none [] _ _
      (by decide) rfl rfl,
    hS 4 6 [] _ (by decide) rfl,
    hR 8 [1] ⟨0, 1⟩ (.Registered 2) [] _ _ (by decide) rfl rfl,
    hM (fun _ => some ⟨"image/gif"⟩) 9 [1, 2] _ (by decide) rfl⟩

/-- Claim C1 counterexample: with the externally supplied id equal to the
default id value 0, `apply` skips the creation event (its guard
`self.id != id` fails on a default aggregate), so replaying the stream of
a successfully created ExtraService with id 0 does NOT reproduce the live
aggregate. -/
theorem claim_C1_counterexample_id_zero :
    ExtraService.create 0 "AF" "x" ⟨10000, .JPY⟩ =
      .ok ⟨0, "AF", "x", ⟨10000, .JPY⟩,
        [.extraServiceCreated 0 "AF" "x" ⟨10000, .JPY⟩]⟩ ∧
    ¬ ExtraService.eqv
      ((ExtraService.replay ExtraService.default
        [.extraServiceCreated 0 "AF" "x" ⟨10000, .JPY⟩]).clear)
      (ExtraService.clear ⟨0, "AF", "x", ⟨10000, .JPY⟩,
        [.extraServiceCreated 0 "AF" "x" ⟨10000, .JPY⟩]⟩) := by
  constructor
  · rfl
  · decide

/-- Claim C2: `validate` accepts a `ProstituteVideoChanged` event whose id
matches the aggregate, but `apply` on that event never terminates for any
fuel — `apply` calls `change_video`, which calls `apply` on the same
event. The claim states that the validated `apply` terminates; the code
recurses forever (a stack overflow in the source). -/
theorem claim_C2_validated_video_apply_never_terminates :
    ∀ fuel : Nat,
      Prostitute.validate { Prostitute.default with id := 3 }
        (.prostituteVideoChanged 3 (some 4)) = .ok () ∧
      Prostitute.applyF fuel { Prostitute.default with id := 3 }
        (.prostituteVideoChanged 3 (some 4)) = none := by
  intro fuel
  refine ⟨rfl, ?_⟩
  simpa using Prostitute.applyF_video_self fuel
    { Prostitute.default with id := 3 } (some 4)

/-- Claim C3: the source inverts the rejoin guard and pushes the wrong
event. On a Prostitute whose `leaved` flag is true, `rejoin` FAILS with
`AlreadyLeft` (the claim says it succeeds); on `leaved = false` it
succeeds and pushes a `ProstituteLeaved` event (the claim says a
`ProstituteRejoined` event, and that this case fails). -/
theorem claim_C3_rejoin_inverted_guard_and_wrong_event :
    Prostitute.rejoin { Prostitute.default with leaved := true } =
      .error .AlreadyLeft ∧
    Prostitute.rejoin { Prostitute.default with leaved := false } =
      .ok { Prostitute.default with
            leaved := false
            events := [.prostituteLeaved 0] } := by
  exact ⟨rfl, rfl⟩

/-- Claim C4: `delete_shifts` keeps exactly the listed shifts and removes
all the others — the retain predicate is inverted. On a schedule holding
shifts 1 and 2, deleting `[1]` succeeds, appends `ShiftsDeleted [1]`, but
leaves shift 1 in place and removes shift 2. -/
theorem claim_C4_delete_shifts_retains_listed :
    Schedule.delete_shifts
      ⟨7, 9, [⟨1, ⟨0, 10⟩, .Editing⟩, ⟨2, ⟨10, 20⟩, .Editing⟩], []⟩ [1] =
      .ok ⟨7, 9, [⟨1, ⟨0, 10⟩, .Editing⟩], [.shiftsDeleted [1]]⟩ := by
  rfl

/-- Claim C9: for the figure of the specification's scenario 3 (height 168,
weight 60, bust 98/80, waist 71, hip 98) the source computes
`figure_type() = [Tall]` — `Voluptuous` does NOT fire, because
`bust.top > h*59/100` is `98 > 99`, which is false (the repository's own
unit test asserts `[Tall, Voluptuous]` and fails). -/
theorem claim_C9_figure_type_voluptuous_missing :
    Figure.figure_type ⟨some ⟨⟨98, some 80⟩, 71, 98⟩, none, some 168, some 60⟩ =
      [.Tall] ∧
    FigureType.Voluptuous ∉
      Figure.figure_type ⟨some ⟨⟨98, some 80⟩, 71, 98⟩, none, some 168, some 60⟩ := by
  have hb : Figure.bmi ⟨some ⟨⟨98, some 80⟩, 71, 98⟩, none, some 168, some 60⟩ =
      some ((((60 : Nat)) : ℚ) / (((((168 : Nat)) : ℚ)) / 100) ^ 2) := rfl
  have h1 : ¬ ((((60 : Nat)) : ℚ) / (((((168 : Nat)) : ℚ)) / 100) ^ 2 < 37 / 2) := by
    push_cast
    norm_num
  have h2 : ¬ ((23 : ℚ) ≤ (((60 : Nat)) : ℚ) / (((((168 : Nat)) : ℚ)) / 100) ^ 2 ∧
      (((60 : Nat)) : ℚ) / (((((168 : Nat)) : ℚ)) / 100) ^ 2 < 25) := by
    push_cast
    norm_num
  have h3 : ¬ ((25 : ℚ) ≤ (((60 : Nat)) : ℚ) / (((((168 : Nat)) : ℚ)) / 100) ^ 2) := by
    push_cast
    norm_num
  have hmain : Figure.figure_type
      ⟨some ⟨⟨98, some 80⟩, 71, 98⟩, none, some 168, some 60⟩ = [.Tall] := by
    simp [Figure.figure_type, hb, h1, h2, h3]
    norm_num
  exact ⟨hmain, by simp [hmain]⟩

/-- Claim C8 counterexample: a schedule holding only shift 1 at `[0,10)`;
changing shift 1's time to `[5,15)` overlaps no OTHER shift — only the
shift being modified — yet the code fails with `OverlappingShift`, because
`validate_overlapping_shift` searches ALL shifts without excluding the one
being modified. -/
theorem claim_C8_counterexample_self_overlap :
    Schedule.change_shift_time ⟨7, 9, [⟨1, ⟨0, 10⟩, .Editing⟩], []⟩ 1 ⟨5, 15⟩ =
      .error .OverlappingShift := rfl

/-- Claim C8 (amended): for a candidate interval with `start ≤ end`,
`change_shift_time(shift_id, time)` fails with `OverlappingShift` iff the
shift exists in the schedule AND the new interval intersects — per the
interval tree's semantics: both intervals non-empty and half-open
crossing (`a.start < b.end ∧ b.start < a.end`) — the interval of SOME
shift of the schedule, INCLUDING the shift being modified. -/
theorem claim_C8_overlap_check_includes_modified_shift :
    ∀ (s : Schedule) (sid : Nat) (t : TimeRange), t.start ≤ t.stop →
      (Schedule.change_shift_time s sid t = .error .OverlappingShift ↔
        (∃ sh ∈ s.shifts, sh.id = sid) ∧
          ∃ sh ∈ s.shifts, Schedule.overlap sh.time t) := by
  intro s sid t hts
  by_cases hfound : ∃ sh ∈ s.shifts, sh.id = sid
  · have hfb : s.shifts.any (fun sh => sh.id = sid) = true := by
      simp only [List.any_eq_true, decide_eq_true_eq]
      exact hfound
    by_cases hov : ∃ sh ∈ s.shifts, Schedule.overlap sh.time t
    · have hob : s.shifts.any (fun sh => decide (Schedule.overlap sh.time t)) = true := by
        simp only [List.any_eq_true, decide_eq_true_eq]
        exact hov
      simp [Schedule.change_shift_time, Schedule.validate_shift_time_changed,
        Schedule.validate_shift_not_found, Schedule.validate_overlapping_shift,
        hfb, hob, exbind_ok, exbind_err, hfound, hov]
    · have hob : s.shifts.any (fun sh => decide (Schedule.overlap sh.time t)) = false := by
        simp only [List.any_eq_false, decide_eq_true_eq]
        intro sh hsh
        exact fun hc => hov ⟨sh, hsh, hc⟩
      cases hf : s.shift sid with
      | none =>
          exfalso
          obtain ⟨sh, hsh, hid⟩ := hfound
          have := List.find?_eq_none.mp hf sh hsh
          simp [hid] at this
      | some sh =>
          have hnt : ¬ t.start > t.stop := not_lt.mpr hts
          simp [Schedule.change_shift_time, Schedule.validate_shift_time_changed,
            Schedule.validate_shift_not_found, Schedule.validate_overlapping_shift,
            Shift.validate_time, hfb, hob, hf, hnt, exbind_ok, exbind_err, hov]
  · have hfb : s.shifts.any (fun sh => sh.id = sid) = false := by
      simp only [List.any_eq_false, decide_eq_true_eq]
      intro sh hsh
      exact fun hc => hfound ⟨sh, hsh, hc⟩
    simp [Schedule.change_shift_time, Schedule.validate_shift_time_changed,
      Schedule.validate_shift_not_found, hfb, exbind_ok, exbind_err, hfound]

/-- Claim C8 witness: the amended characterization applied to a concrete
schedule holding shift 1 at `[0,10)`, for a disjoint candidate `[20,30)`
and for the zero-width candidate `[5,5)` (which the interval tree never
reports, so the change succeeds). -/
theorem claim_C8_overlap_check_witness :
    (Schedule.change_shift_time ⟨7, 9, [⟨1, ⟨0, 10⟩, .Editing⟩], []⟩ 1 ⟨20, 30⟩ =
        .error .OverlappingShift ↔
      (∃ sh ∈ ([⟨1, ⟨0, 10⟩, .Editing⟩] : List Shift), sh.id = 1) ∧
        ∃ sh ∈ ([⟨1, ⟨0, 10⟩, .Editing⟩] : List Shift),
          Schedule.overlap sh.time ⟨20, 30⟩) ∧
    (Schedule.change_shift_time ⟨7, 9, [⟨1, ⟨0, 10⟩, .Editing⟩], []⟩ 1 ⟨5, 5⟩ =
        .error .OverlappingShift ↔
      (∃ sh ∈ ([⟨1, ⟨0, 10⟩, .Editing⟩] : List Shift), sh.id = 1) ∧
        ∃ sh ∈ ([⟨1, ⟨0, 10⟩, .Editing⟩] : List Shift),
          Schedule.overlap sh.time ⟨5, 5⟩) :=
  ⟨claim_C8_overlap_check_includes_modified_shift
      ⟨7, 9, [⟨1, ⟨0, 10⟩, .Editing⟩], []⟩ 1 ⟨20, 30⟩ (by decide),
    claim_C8_overlap_check_includes_modified_shift
      ⟨7, 9, [⟨1, ⟨0, 10⟩, .Editing⟩], []⟩ 1 ⟨5, 5⟩ (by decide)⟩

/-! ## Event envelope codec (src/infrastructure.rs and the per-aggregate
`From<...Event> for EventData` / `TryFrom<ResolvedEvent>` impls)

JSON values are modelled by an inductive; `serde_json` serialization of
each payload type is embedded per the derived serde code (externally
tagged enums; struct fields by name; `Option` as null-or-value; numbers
for the integer types; `chrono` date / date-time values are represented
by their numeric instant, injectively, as the external chrono codec is).
Objects are association lists; the decoders read fields by key, matching
serde's name-directed field access (and its tolerance of unknown
fields). -/

inductive Json
  | str (s : String)
  | num (n : Int)
  | null
  | arr (elems : List Json)
  | obj (fields : List (String × Json))

/-- `stream_name` (infrastructure.rs lines 70-72): `<entity_name>-<id>`. -/
def stream_name (entity_name : String) (id : Nat) : String :=
  entity_name ++ "-" ++ Nat.repr id

/-- `str::split` at `-`, on the character list. -/
def splitDashChars : List Char → List (List Char)
  | [] => [[]]
  | c :: rest =>
      if c = '-' then [] :: splitDashChars rest
      else
        match splitDashChars rest with
        | [] => [[c]]
        | seg :: segs => (c :: seg) :: segs

/-- `str::parse::<u64>` on a fragment: all-digit, non-empty (the `+` sign
Rust would also accept never occurs in stream names, and the ids fit
u64). -/
def parseNatChars (cs : List Char) : Option Nat :=
  if cs.isEmpty then none
  else if cs.all Char.isDigit then
    some (cs.foldl (fun acc c => acc * 10 + (c.toNat - Char.toNat (Char.ofNat 48))) 0)
  else none

/-- `entity_id` (infrastructure.rs lines 58-68): split the stream id on
`-`, parse each fragment as a number, take the last success. -/
def entity_id (stream_id : String) : Option Nat :=
  ((splitDashChars stream_id.data).filterMap parseNatChars).getLast?

/-! Component codecs, mirroring the derived serde impls. -/

def encNat (n : Nat) : Json := .num n

def decNat : Json → Option Nat
  | .num n => if 0 ≤ n then some n.toNat else none
  | _ => none

def encInt (n : Int) : Json := .num n

def decInt : Json → Option Int
  | .num n => some n
  | _ => none

def encStr (s : String) : Json := .str s

def decStr : Json → Option String
  | .str s => some s
  | _ => none

def encOpt {α : Type} (enc : α → Json) : Option α → Json
  | none => .null
  | some x => enc x

def decOpt {α : Type} (dec : Json → Option α) : Json → Option (Option α)
  | .null => some none
  | j => (dec j).map some

def encList {α : Type} (enc : α → Json) (xs : List α) : Json :=
  .arr (xs.map enc)

def decList {α : Type} (dec : Json → Option α) : Json → Option (List α)
  | .arr es => es.mapM dec
  | _ => none

/-- Read a field of a serde-produced object. -/
def jfield (fields : List (String × Json)) (k : String) : Option Json :=
  fields.lookup k

def encCurrency : Currency → Json
  | .JPY => .str "JPY"

def decCurrency : Json → Option Currency
  | .str "JPY" => some .JPY
  | _ => none

def encMoney (m : Money) : Json :=
  .obj [("amount", encInt m.amount), ("currency", encCurrency m.currency)]

def decMoney : Json → Option Money
  | .obj fields => do
      let amount ← jfield fields "amount" >>= decInt
      let currency ← jfield fields "currency" >>= decCurrency
      some ⟨amount, currency⟩
  | _ => none

theorem decNat_encNat (n : Nat) : decNat (encNat n) = some n := by
  simp [encNat, decNat]

theorem decInt_encInt (n : Int) : decInt (encInt n) = some n := rfl

theorem decStr_encStr (s : String) : decStr (encStr s) = some s := rfl

theorem decOpt_encOpt {α : Type} (enc : α → Json) (dec : Json → Option α)
    (hrt : ∀ x, dec (enc x) = some x) (hnn : ∀ x, enc x ≠ .null)
    (o : Option α) : decOpt dec (encOpt enc o) = some o := by
  cases o with
  | none => rfl
  | some x =>
      have h1 : encOpt enc (some x) = enc x := rfl
      rw [h1]
      have h2 : decOpt dec (enc x) = (dec (enc x)).map some := by
        cases he : enc x with
        | null => exact absurd he (hnn x)
        | str s => rfl
        | num n => rfl
        | arr es => rfl
        | obj fs => rfl
      rw [h2, hrt x]
      rfl

theorem decList_encList {α : Type} (enc : α → Json) (dec : Json → Option α)
    (hrt : ∀ x, dec (enc x) = some x) (xs : List α) :
    decList dec (encList enc xs) = some xs := by
  induction xs with
  | nil => rfl
  | cons x rest ih =>
      have ih2 : (rest.map enc).mapM dec = some rest := ih
      show ((x :: rest).map enc).mapM dec = some (x :: rest)
      rw [List.map_cons, List.mapM_cons, hrt x, ih2]
      rfl

theorem decMoney_encMoney (m : Money) : decMoney (encMoney m) = some m := by
  cases m with
  | mk amount currency =>
      cases currency
      simp [encMoney, decMoney, jfield, encInt, decInt, encCurrency,
        decCurrency, List.lookup, obind_some]

/-! ### ExtraService events on the wire -/

/-- The serde externally-tagged serialization of `ExtraServiceEvent`
(variant name as single key, payload fields by name, in declaration
order). -/
def ExtraServiceEvent.toValue : ExtraServiceEvent → Json
  | .extraServiceCreated id name description price =>
      .obj [("ExtraServiceCreated", .obj
        [("id", encNat id), ("name", encStr name),
         ("description", encStr description), ("price", encMoney price)])]
  | .extraServiceNameChanged id name =>
      .obj [("ExtraServiceNameChanged", .obj
        [("id", encNat id), ("name", encStr name)])]
  | .extraServiceDescriptionChanged id description =>
      .obj [("ExtraServiceDescriptionChanged", .obj
        [("id", encNat id), ("description", encStr description)])]
  | .extraServicePriceChanged id price =>
      .obj [("ExtraServicePriceChanged", .obj
        [("id", encNat id), ("price", encMoney price)])]
  | .extraServiceDeleted id =>
      .obj [("ExtraServiceDeleted", .obj [("id", encNat id)])]

/-- The serde deserializer for `ExtraServiceEvent` (externally tagged:
a map with the variant name as key; unknown variant fails). -/
def ExtraServiceEvent.fromValue : Json → Option ExtraServiceEvent
  | .obj [(tag, .obj fields)] =>
      match tag with
      | "ExtraServiceCreated" => do
          let id ← jfield fields "id" >>= decNat
          let name ← jfield fields "name" >>= decStr
          let description ← jfield fields "description" >>= decStr
          let price ← jfield fields "price" >>= decMoney
          some (.extraServiceCreated id name description price)
      | "ExtraServiceNameChanged" => do
          let id ← jfield fields "id" >>= decNat
          let name ← jfield fields "name" >>= decStr
          some (.extraServiceNameChanged id name)
      | "ExtraServiceDescriptionChanged" => do
          let id ← jfield fields "id" >>= decNat
          let description ← jfield fields "description" >>= decStr
          some (.extraServiceDescriptionChanged id description)
      | "ExtraServicePriceChanged" => do
          let id ← jfield fields "id" >>= decNat
          let price ← jfield fields "price" >>= decMoney
          some (.extraServicePriceChanged id price)
      | "ExtraServiceDeleted" => do
          let id ← jfield fields "id" >>= decNat
          some (.extraServiceDeleted id)
      | _ => none
  | _ => none

/-- `from_event` (infrastructure.rs lines 74-80) applied to a serialized
event: event_type is the single key of the externally-tagged value; the
body is the payload with the `id` entry removed. Non-object shapes never
arise from the serializer (the source unwraps). -/
def from_event_generic (root : Json) : String × Json :=
  match root with
  | .obj ((tag, .obj fields) :: _) =>
      (tag, .obj (fields.filter (fun kv => kv.1 ≠ "id")))
  | _ => ("", .null)

/-- A log record carrying a JSON body, as `try_from_resolved_event` reads
it: stream id, event type, body. -/
structure ResolvedEventJ where
  stream_id : String
  event_type : String
  data : Json

/-- `serde_json` map insert (the map is keyed, so position does not matter
to the name-directed decoder): replace any existing `id` entry. Non-object
bodies never arise here (the source unwraps). -/
def insertId (j : Json) (id : Nat) : Option Json :=
  match j with
  | .obj fields =>
      some (.obj (("id", encNat id) :: fields.filter (fun kv => kv.1 ≠ "id")))
  | _ => none

/-- `try_from_resolved_event` (infrastructure.rs lines 82-95), specialized
to ExtraService: recover the id from the stream name, inject it into the
body, rebuild the externally-tagged value, deserialize. -/
def try_from_resolved_ES (r : ResolvedEventJ) : Option ExtraServiceEvent := do
  let id ← entity_id r.stream_id
  let data ← insertId r.data id
  ExtraServiceEvent.fromValue (.obj [(r.event_type, data)])

/-- The id each ExtraService event carries. -/
def ExtraServiceEvent.eventId : ExtraServiceEvent → Nat
  | .extraServiceCreated id _ _ _ => id
  | .extraServiceNameChanged id _ => id
  | .extraServiceDescriptionChanged id _ => id
  | .extraServicePriceChanged id _ => id
  | .extraServiceDeleted id => id

theorem ES_roundtrip (e : ExtraServiceEvent) (stream : String)
    (hid : entity_id stream = some e.eventId) :
    try_from_resolved_ES
      ⟨stream, (from_event_generic e.toValue).1,
        (from_event_generic e.toValue).2⟩ = some e := by
  cases e <;>
    simp [ExtraServiceEvent.toValue, from_event_generic, try_from_resolved_ES,
      ExtraServiceEvent.eventId, hid, insertId, obind_some,
      ExtraServiceEvent.fromValue, jfield, List.lookup, List.filter,
      decNat_encNat, decStr_encStr, decMoney_encMoney]

/-! ### Prostitute payload component codecs -/

def encBloodType : BloodType → Json
  | .A => .str "A"
  | .B => .str "B"
  | .O => .str "O"
  | .AB => .str "AB"

def decBloodType : Json → Option BloodType
  | .str "A" => some .A
  | .str "B" => some .B
  | .str "O" => some .O
  | .str "AB" => some .AB
  | _ => none

theorem decBloodType_enc (b : BloodType) : decBloodType (encBloodType b) = some b := by
  cases b <;> rfl

def encCupSize : CupSize → Json
  | .AAA => .str "AAA" | .AA => .str "AA" | .A => .str "A" | .B => .str "B"
  | .C => .str "C" | .D => .str "D" | .E => .str "E" | .F => .str "F"
  | .G => .str "G" | .H => .str "H" | .I => .str "I" | .J => .str "J"
  | .K => .str "K" | .L => .str "L" | .M => .str "M" | .N => .str "N"
  | .O => .str "O" | .P => .str "P" | .Q => .str "Q" | .R => .str "R"
  | .S => .str "S" | .T => .str "T" | .U => .str "U" | .V => .str "V"
  | .W => .str "W" | .X => .str "X" | .Y => .str "Y" | .Z => .str "Z"

def decCupSize : Json → Option CupSize
  | .str "AAA" => some .AAA | .str "AA" => some .AA | .str "A" => some .A
  | .str "B" => some .B | .str "C" => some .C | .str "D" => some .D
  | .str "E" => some .E | .str "F" => some .F | .str "G" => some .G
  | .str "H" => some .H | .str "I" => some .I | .str "J" => some .J
  | .str "K" => some .K | .str "L" => some .L | .str "M" => some .M
  | .str "N" => some .N | .str "O" => some .O | .str "P" => some .P
  | .str "Q" => some .Q | .str "R" => some .R | .str "S" => some .S
  | .str "T" => some .T | .str "U" => some .U | .str "V" => some .V
  | .str "W" => some .W | .str "X" => some .X | .str "Y" => some .Y
  | .str "Z" => some .Z
  | _ => none

theorem decCupSize_enc (c : CupSize) : decCupSize (encCupSize c) = some c := by
  cases c <;> rfl

def encBirthday (b : Birthday) : Json := .num b.day

def decBirthday (j : Json) : Option Birthday := (decNat j).map Birthday.mk

theorem decBirthday_enc (b : Birthday) : decBirthday (encBirthday b) = some b := by
  cases b with
  | mk d => simp [encBirthday, decBirthday, encNat, decNat]

def encQuestion (q : Question) : Json :=
  .obj [("question", encStr q.question), ("answer", encStr q.answer)]

def decQuestion : Json → Option Question
  | .obj fields => do
      let question ← jfield fields "question" >>= decStr
      let answer ← jfield fields "answer" >>= decStr
      some ⟨question, answer⟩
  | _ => none

theorem decQuestion_enc (q : Question) : decQuestion (encQuestion q) = some q := by
  cases q with
  | mk a b =>
      simp [encQuestion, decQuestion, jfield, List.lookup, encStr, decStr,
        obind_some]

def encBust (b : Bust) : Json :=
  .obj [("top", encNat b.top), ("under", encOpt encNat b.under)]

def decBust : Json → Option Bust
  | .obj fields => do
      let top ← jfield fields "top" >>= decNat
      let under ← jfield fields "under" >>= decOpt decNat
      some ⟨top, under⟩
  | _ => none

theorem encNat_ne_null (n : Nat) : encNat n ≠ .null := by simp [encNat]

theorem decOptNat (o : Option Nat) :
    decOpt decNat (encOpt encNat o) = some o :=
  decOpt_encOpt encNat decNat decNat_encNat encNat_ne_null o

theorem decBust_enc (b : Bust) : decBust (encBust b) = some b := by
  cases b with
  | mk top under =>
      simp [encBust, decBust, jfield, List.lookup, decNat_encNat, decOptNat,
        obind_some]

def encVitalStatistics (v : VitalStatistics) : Json :=
  .obj [("bust", encBust v.bust), ("waist", encNat v.waist),
        ("hip", encNat v.hip)]

def decVitalStatistics : Json → Option VitalStatistics
  | .obj fields => do
      let bust ← jfield fields "bust" >>= decBust
      let waist ← jfield fields "waist" >>= decNat
      let hip ← jfield fields "hip" >>= decNat
      some ⟨bust, waist, hip⟩
  | _ => none

theorem decVitalStatistics_enc (v : VitalStatistics) :
    decVitalStatistics (encVitalStatistics v) = some v := by
  cases v with
  | mk bust waist hip =>
      simp [encVitalStatistics, decVitalStatistics, jfield, List.lookup,
        decBust_enc, decNat_encNat, obind_some]

theorem encBust_ne_null (b : Bust) : encBust b ≠ .null := by simp [encBust]

theorem encVS_ne_null (v : VitalStatistics) : encVitalStatistics v ≠ .null := by
  simp [encVitalStatistics]

theorem encCupSize_ne_null (c : CupSize) : encCupSize c ≠ .null := by
  cases c <;> simp [encCupSize]

def encFigure (f : Figure) : Json :=
  .obj [("vital_statistics", encOpt encVitalStatistics f.vital_statistics),
        ("cup_size", encOpt encCupSize f.cup_size),
        ("height", encOpt encNat f.height),
        ("weight", encOpt encNat f.weight)]

def decFigure : Json → Option Figure
  | .obj fields => do
      let vs ← jfield fields "vital_statistics" >>= decOpt decVitalStatistics
      let cup ← jfield fields "cup_size" >>= decOpt decCupSize
      let height ← jfield fields "height" >>= decOpt decNat
      let weight ← jfield fields "weight" >>= decOpt decNat
      some ⟨vs, cup, height, weight⟩
  | _ => none

theorem decFigure_enc (f : Figure) : decFigure (encFigure f) = some f := by
  cases f with
  | mk vs cup height weight =>
      simp [encFigure, decFigure, jfield, List.lookup, obind_some, decOptNat,
        decOpt_encOpt encVitalStatistics decVitalStatistics
          decVitalStatistics_enc encVS_ne_null,
        decOpt_encOpt encCupSize decCupSize decCupSize_enc encCupSize_ne_null]

theorem encBirthday_ne_null (b : Birthday) : encBirthday b ≠ .null := by
  simp [encBirthday]

theorem encBloodType_ne_null (b : BloodType) : encBloodType b ≠ .null := by
  cases b <;> simp [encBloodType]

theorem decOptBlood (o : Option BloodType) :
    decOpt decBloodType (encOpt encBloodType o) = some o :=
  decOpt_encOpt encBloodType decBloodType decBloodType_enc encBloodType_ne_null o

theorem decOptBirthday (o : Option Birthday) :
    decOpt decBirthday (encOpt encBirthday o) = some o :=
  decOpt_encOpt encBirthday decBirthday decBirthday_enc encBirthday_ne_null o

theorem decQuestions (qs : List Question) :
    decList decQuestion (encList encQuestion qs) = some qs :=
  decList_encList encQuestion decQuestion decQuestion_enc qs

theorem decNats (xs : List Nat) :
    decList decNat (encList encNat xs) = some xs :=
  decList_encList encNat decNat decNat_encNat xs

/-! ### Prostitute events on the wire -/

/-- The serde externally-tagged serialization of `ProstituteEvent`. -/
def ProstituteEvent.toValue : ProstituteEvent → Json
  | .prostituteJoined id name catchphrase profile message figure blood
        birthday questions images video =>
      .obj [("ProstituteJoined", .obj
        [("id", encNat id), ("name", encStr name),
         ("catchphrase", encStr catchphrase), ("profile", encStr profile),
         ("message", encStr message), ("figure", encFigure figure),
         ("blood", encOpt encBloodType blood),
         ("birthday", encOpt encBirthday birthday),
         ("questions", encList encQuestion questions),
         ("images", encList encNat images),
         ("video", encOpt encNat video)])]
  | .prostituteRejoined id =>
      .obj [("ProstituteRejoined", .obj [("id", encNat id)])]
  | .prostituteLeaved id =>
      .obj [("ProstituteLeaved", .obj [("id", encNat id)])]
  | .prostituteExtraServiceNameChanged id name =>
      .obj [("ProstituteExtraServiceNameChanged", .obj
        [("id", encNat id), ("name", encStr name)])]
  | .prostituteCatchphraseChanged id catchphrase =>
      .obj [("ProstituteCatchphraseChanged", .obj
        [("id", encNat id), ("catchphrase", encStr catchphrase)])]
  | .prostituteProfileChanged id profile =>
      .obj [("ProstituteProfileChanged", .obj
        [("id", encNat id), ("profile", encStr profile)])]
  | .prostituteMessageChanged id message =>
      .obj [("ProstituteMessageChanged", .obj
        [("id", encNat id), ("message", encStr message)])]
  | .prostituteFigureChanged id figure =>
      .obj [("ProstituteFigureChanged", .obj
        [("id", encNat id), ("figure", encFigure figure)])]
  | .prostituteBloodTypeChanged id blood =>
      .obj [("ProstituteBloodTypeChanged", .obj
        [("id", encNat id), ("blood", encOpt encBloodType blood)])]
  | .prostituteBirthdayChanged id birthday =>
      .obj [("ProstituteBirthdayChanged", .obj
        [("id", encNat id), ("birthday", encOpt encBirthday birthday)])]
  | .prostituteQuestionsChanged id questions =>
      .obj [("ProstituteQuestionsChanged", .obj
        [("id", encNat id), ("questions", encList encQuestion questions)])]
  | .prostituteQuestionAdded id question =>
      .obj [("ProstituteQuestionAdded", .obj
        [("id", encNat id), ("question", encQuestion question)])]
  | .prostituteQuestionDeleted id index =>
      .obj [("ProstituteQuestionDeleted", .obj
        [("id", encNat id), ("index", encNat index)])]
  | .prostituteQuestionSwapped id index_a index_b =>
      .obj [("ProstituteQuestionSwapped", .obj
        [("id", encNat id), ("index_a", encNat index_a),
         ("index_b", encNat index_b)])]
  | .prostituteImagesChanged id media_ids =>
      .obj [("ProstituteImagesChanged", .obj
        [("id", encNat id), ("media_ids", encList encNat media_ids)])]
  | .prostituteImageAdded id media_id =>
      .obj [("ProstituteImageAdded", .obj
        [("id", encNat id), ("media_id", encNat media_id)])]
  | .prostituteImageDeleted id media_id =>
      .obj [("ProstituteImageDeleted", .obj
        [("id", encNat id), ("media_id", encNat media_id)])]
  | .prostituteImageSwapped id media_id_a media_id_b =>
      .obj [("ProstituteImageSwapped", .obj
        [("id", encNat id), ("media_id_a", encNat media_id_a),
         ("media_id_b", encNat media_id_b)])]
  | .prostituteVideoChanged id media_id =>
      .obj [("ProstituteVideoChanged", .obj
        [("id", encNat id), ("media_id", encOpt encNat media_id)])]
  | .prostituteDeleted id =>
      .obj [("ProstituteDeleted", .obj [("id", encNat id)])]

/-! Per-variant field parsers of the `ProstituteEvent` serde
deserializer. -/

def pJoined (fields : List (String × Json)) : Option ProstituteEvent :=
  do
      let id ← jfield fields "id" >>= decNat
      let name ← jfield fields "name" >>= decStr
      let catchphrase ← jfield fields "catchphrase" >>= decStr
      let profile ← jfield fields "profile" >>= decStr
      let message ← jfield fields "message" >>= decStr
      let figure ← jfield fields "figure" >>= decFigure
      let blood ← jfield fields "blood" >>= decOpt decBloodType
      let birthday ← jfield fields "birthday" >>= decOpt decBirthday
      let questions ← jfield fields "questions" >>= decList decQuestion
      let images ← jfield fields "images" >>= decList decNat
      let video ← jfield fields "video" >>= decOpt decNat
      some (.prostituteJoined id name catchphrase profile message figure
        blood birthday questions images video)

def pRejoined (fields : List (String × Json)) : Option ProstituteEvent :=
  do
      let id ← jfield fields "id" >>= decNat
      some (.prostituteRejoined id)

def pLeaved (fields : List (String × Json)) : Option ProstituteEvent :=
  do
      let id ← jfield fields "id" >>= decNat
      some (.prostituteLeaved id)

def pNameChanged (fields : List (String × Json)) : Option ProstituteEvent :=
  do
      let id ← jfield fields "id" >>= decNat
      let name ← jfield fields "name" >>= decStr
      some (.prostituteExtraServiceNameChanged id name)

def pCatchphraseChanged (fields : List (String × Json)) : Option ProstituteEvent :=
  do
      let id ← jfield fields "id" >>= decNat
      let catchphrase ← jfield fields "catchphrase" >>= decStr
      some (.prostituteCatchphraseChanged id catchphrase)

def pProfileChanged (fields : List (String × Json)) : Option ProstituteEvent :=
  do
      let id ← jfield fields "id" >>= decNat
      let profile ← jfield fields "profile" >>= decStr
      some (.prostituteProfileChanged id profile)

def pMessageChanged (fields : List (String × Json)) : Option ProstituteEvent :=
  do
      let id ← jfield fields "id" >>= decNat
      let message ← jfield fields "message" >>= decStr
      some (.prostituteMessageChanged id message)

def pFigureChanged (fields : List (String × Json)) : Option ProstituteEvent :=
  do
      let id ← jfield fields "id" >>= decNat
      let figure ← jfield fields "figure" >>= decFigure
      some (.prostituteFigureChanged id figure)

def pBloodTypeChanged (fields : List (String × Json)) : Option ProstituteEvent :=
  do
      let id ← jfield fields "id" >>= decNat
      let blood ← jfield fields "blood" >>= decOpt decBloodType
      some (.prostituteBloodTypeChanged id blood)

def pBirthdayChanged (fields : List (String × Json)) : Option ProstituteEvent :=
  do
      let id ← jfield fields "id" >>= decNat
      let birthday ← jfield fields "birthday" >>= decOpt decBirthday
      some (.prostituteBirthdayChanged id birthday)

def pQuestionsChanged (fields : List (String × Json)) : Option ProstituteEvent :=
  do
      let id ← jfield fields "id" >>= decNat
      let questions ← jfield fields "questions" >>= decList decQuestion
      some (.prostituteQuestionsChanged id questions)

def pQuestionAdded (fields : List (String × Json)) : Option ProstituteEvent :=
  do
      let id ← jfield fields "id" >>= decNat
      let question ← jfield fields "question" >>= decQuestion
      some (.prostituteQuestionAdded id question)

def pQuestionDeleted (fields : List (String × Json)) : Option ProstituteEvent :=
  do
      let id ← jfield fields "id" >>= decNat
      let index ← jfield fields "index" >>= decNat
      some (.prostituteQuestionDeleted id index)

def pQuestionSwapped (fields : List (String × Json)) : Option ProstituteEvent :=
  do
      let id ← jfield fields "id" >>= decNat
      let index_a ← jfield fields "index_a" >>= decNat
      let index_b ← jfield fields "index_b" >>= decNat
      some (.prostituteQuestionSwapped id index_a index_b)

def pImagesChanged (fields : List (String × Json)) : Option ProstituteEvent :=
  do
      let id ← jfield fields "id" >>= decNat
      let media_ids ← jfield fields "media_ids" >>= decList decNat
      some (.prostituteImagesChanged id media_ids)

def pImageAdded (fields : List (String × Json)) : Option ProstituteEvent :=
  do
      let id ← jfield fields "id" >>= decNat
      let media_id ← jfield fields "media_id" >>= decNat
      some (.prostituteImageAdded id media_id)

def pImageDeleted (fields : List (String × Json)) : Option ProstituteEvent :=
  do
      let id ← jfield fields "id" >>= decNat
      let media_id ← jfield fields "media_id" >>= decNat
      some (.prostituteImageDeleted id media_id)

def pImageSwapped (fields : List (String × Json)) : Option ProstituteEvent :=
  do
      let id ← jfield fields "id" >>= decNat
      let media_id_a ← jfield fields "media_id_a" >>= decNat
      let media_id_b ← jfield fields "media_id_b" >>= decNat
      some (.prostituteImageSwapped id media_id_a media_id_b)

def pVideoChanged (fields : List (String × Json)) : Option ProstituteEvent :=
  do
      let id ← jfield fields "id" >>= decNat
      let media_id ← jfield fields "media_id" >>= decOpt decNat
      some (.prostituteVideoChanged id media_id)

def pDeleted (fields : List (String × Json)) : Option ProstituteEvent :=
  do
      let id ← jfield fields "id" >>= decNat
      some (.prostituteDeleted id)

/-- The serde deserializer for `ProstituteEvent` (externally tagged; the
variant-name dispatch is an equality chain over the per-variant
parsers). -/
def ProstituteEvent.fromValue : Json → Option ProstituteEvent
  | .obj [(tag, .obj fields)] =>
      if tag = "ProstituteJoined" then pJoined fields
      else if tag = "ProstituteRejoined" then pRejoined fields
      else if tag = "ProstituteLeaved" then pLeaved fields
      else if tag = "ProstituteExtraServiceNameChanged" then pNameChanged fields
      else if tag = "ProstituteCatchphraseChanged" then pCatchphraseChanged fields
      else if tag = "ProstituteProfileChanged" then pProfileChanged fields
      else if tag = "ProstituteMessageChanged" then pMessageChanged fields
      else if tag = "ProstituteFigureChanged" then pFigureChanged fields
      else if tag = "ProstituteBloodTypeChanged" then pBloodTypeChanged fields
      else if tag = "ProstituteBirthdayChanged" then pBirthdayChanged fields
      else if tag = "ProstituteQuestionsChanged" then pQuestionsChanged fields
      else if tag = "ProstituteQuestionAdded" then pQuestionAdded fields
      else if tag = "ProstituteQuestionDeleted" then pQuestionDeleted fields
      else if tag = "ProstituteQuestionSwapped" then pQuestionSwapped fields
      else if tag = "ProstituteImagesChanged" then pImagesChanged fields
      else if tag = "ProstituteImageAdded" then pImageAdded fields
      else if tag = "ProstituteImageDeleted" then pImageDeleted fields
      else if tag = "ProstituteImageSwapped" then pImageSwapped fields
      else if tag = "ProstituteVideoChanged" then pVideoChanged fields
      else if tag = "ProstituteDeleted" then pDeleted fields
      else none
  | _ => none

/-- `try_from_resolved_event` specialized to Prostitute. -/
def try_from_resolved_P (r : ResolvedEventJ) : Option ProstituteEvent := do
  let id ← entity_id r.stream_id
  let data ← insertId r.data id
  ProstituteEvent.fromValue (.obj [(r.event_type, data)])

/-- The id each Prostitute event carries. -/
def ProstituteEvent.eventId : ProstituteEvent → Nat
  | .prostituteJoined id _ _ _ _ _ _ _ _ _ _ => id
  | .prostituteRejoined id => id
  | .prostituteLeaved id => id
  | .prostituteExtraServiceNameChanged id _ => id
  | .prostituteCatchphraseChanged id _ => id
  | .prostituteProfileChanged id _ => id
  | .prostituteMessageChanged id _ => id
  | .prostituteFigureChanged id _ => id
  | .prostituteBloodTypeChanged id _ => id
  | .prostituteBirthdayChanged id _ => id
  | .prostituteQuestionsChanged id _ => id
  | .prostituteQuestionAdded id _ => id
  | .prostituteQuestionDeleted id _ => id
  | .prostituteQuestionSwapped id _ _ => id
  | .prostituteImagesChanged id _ => id
  | .prostituteImageAdded id _ => id
  | .prostituteImageDeleted id _ => id
  | .prostituteImageSwapped id _ _ => id
  | .prostituteVideoChanged id _ => id
  | .prostituteDeleted id => id

set_option maxHeartbeats 1000000 in
theorem P_rt_prostituteJoined (id : Nat) (nm cp pr ms : String) (fg : Figure) (bl : Option BloodType) (bd : Option Birthday) (qs : List Question) (im : List Nat) (vd : Option Nat) (stream : String)
    (hid : entity_id stream = some id) :
    try_from_resolved_P
      ⟨stream,
        (from_event_generic (ProstituteEvent.prostituteJoined id nm cp pr ms fg bl bd qs im vd).toValue).1,
        (from_event_generic (ProstituteEvent.prostituteJoined id nm cp pr ms fg bl bd qs im vd).toValue).2⟩ =
      some (ProstituteEvent.prostituteJoined id nm cp pr ms fg bl bd qs im vd) := by
  simp [ProstituteEvent.toValue, from_event_generic, try_from_resolved_P,
    hid, insertId, obind_some, ProstituteEvent.fromValue, pJoined,
    jfield, List.lookup, List.filter,
    decNat_encNat, decStr_encStr, decFigure_enc, decOptBlood,
    decOptBirthday, decQuestions, decNats, decOptNat, decQuestion_enc]

set_option maxHeartbeats 1000000 in
theorem P_rt_prostituteRejoined (id : Nat) (stream : String)
    (hid : entity_id stream = some id) :
    try_from_resolved_P
      ⟨stream,
        (from_event_generic (ProstituteEvent.prostituteRejoined id).toValue).1,
        (from_event_generic (ProstituteEvent.prostituteRejoined id).toValue).2⟩ =
      some (ProstituteEvent.prostituteRejoined id) := by
  simp [ProstituteEvent.toValue, from_event_generic, try_from_resolved_P,
    hid, insertId, obind_some, ProstituteEvent.fromValue, pRejoined,
    jfield, List.lookup, List.filter,
    decNat_encNat, decStr_encStr, decFigure_enc, decOptBlood,
    decOptBirthday, decQuestions, decNats, decOptNat, decQuestion_enc]

set_option maxHeartbeats 1000000 in
theorem P_rt_prostituteLeaved (id : Nat) (stream : String)
    (hid : entity_id stream = some id) :
    try_from_resolved_P
      ⟨stream,
        (from_event_generic (ProstituteEvent.prostituteLeaved id).toValue).1,
        (from_event_generic (ProstituteEvent.prostituteLeaved id).toValue).2⟩ =
      some (ProstituteEvent.prostituteLeaved id) := by
  simp [ProstituteEvent.toValue, from_event_generic, try_from_resolved_P,
    hid, insertId, obind_some, ProstituteEvent.fromValue, pLeaved,
    jfield, List.lookup, List.filter,
    decNat_encNat, decStr_encStr, decFigure_enc, decOptBlood,
    decOptBirthday, decQuestions, decNats, decOptNat, decQuestion_enc]

set_option maxHeartbeats 1000000 in
theorem P_rt_prostituteExtraServiceNameChanged (id : Nat) (nm : String) (stream : String)
    (hid : entity_id stream = some id) :
    try_from_resolved_P
      ⟨stream,
        (from_event_generic (ProstituteEvent.prostituteExtraServiceNameChanged id nm).toValue).1,
        (from_event_generic (ProstituteEvent.prostituteExtraServiceNameChanged id nm).toValue).2⟩ =
      some (ProstituteEvent.prostituteExtraServiceNameChanged id nm) := by
  simp [ProstituteEvent.toValue, from_event_generic, try_from_resolved_P,
    hid, insertId, obind_some, ProstituteEvent.fromValue, pNameChanged,
    jfield, List.lookup, List.filter,
    decNat_encNat, decStr_encStr, decFigure_enc, decOptBlood,
    decOptBirthday, decQuestions, decNats, decOptNat, decQuestion_enc]

set_option maxHeartbeats 1000000 in
theorem P_rt_prostituteCatchphraseChanged (id : Nat) (cp : String) (stream : String)
    (hid : entity_id stream = some id) :
    try_from_resolved_P
      ⟨stream,
        (from_event_generic (ProstituteEvent.prostituteCatchphraseChanged id cp).toValue).1,
        (from_event_generic (ProstituteEvent.prostituteCatchphraseChanged id cp).toValue).2⟩ =
      some (ProstituteEvent.prostituteCatchphraseChanged id cp) := by
  simp [ProstituteEvent.toValue, from_event_generic, try_from_resolved_P,
    hid, insertId, obind_some, ProstituteEvent.fromValue, pCatchphraseChanged,
    jfield, List.lookup, List.filter,
    decNat_encNat, decStr_encStr, decFigure_enc, decOptBlood,
    decOptBirthday, decQuestions, decNats, decOptNat, decQuestion_enc]

set_option maxHeartbeats 1000000 in
theorem P_rt_prostituteProfileChanged (id : Nat) (pr : String) (stream : String)
    (hid : entity_id stream = some id) :
    try_from_resolved_P
      ⟨stream,
        (from_event_generic (ProstituteEvent.prostituteProfileChanged id pr).toValue).1,
        (from_event_generic (ProstituteEvent.prostituteProfileChanged id pr).toValue).2⟩ =
      some (ProstituteEvent.prostituteProfileChanged id pr) := by
  simp [ProstituteEvent.toValue, from_event_generic, try_from_resolved_P,
    hid, insertId, obind_some, ProstituteEvent.fromValue, pProfileChanged,
    jfield, List.lookup, List.filter,
    decNat_encNat, decStr_encStr, decFigure_enc, decOptBlood,
    decOptBirthday, decQuestions, decNats, decOptNat, decQuestion_enc]

set_option maxHeartbeats 1000000 in
theorem P_rt_prostituteMessageChanged (id : Nat) (ms : String) (stream : String)
    (hid : entity_id stream = some id) :
    try_from_resolved_P
      ⟨stream,
        (from_event_generic (ProstituteEvent.prostituteMessageChanged id ms).toValue).1,
        (from_event_generic (ProstituteEvent.prostituteMessageChanged id ms).toValue).2⟩ =
      some (ProstituteEvent.prostituteMessageChanged id ms) := by
  simp [ProstituteEvent.toValue, from_event_generic, try_from_resolved_P,
    hid, insertId, obind_some, ProstituteEvent.fromValue, pMessageChanged,
    jfield, List.lookup, List.filter,
    decNat_encNat, decStr_encStr, decFigure_enc, decOptBlood,
    decOptBirthday, decQuestions, decNats, decOptNat, decQuestion_enc]

set_option maxHeartbeats 1000000 in
theorem P_rt_prostituteFigureChanged (id : Nat) (fg : Figure) (stream : String)
    (hid : entity_id stream = some id) :
    try_from_resolved_P
      ⟨stream,
        (from_event_generic (ProstituteEvent.prostituteFigureChanged id fg).toValue).1,
        (from_event_generic (ProstituteEvent.prostituteFigureChanged id fg).toValue).2⟩ =
      some (ProstituteEvent.prostituteFigureChanged id fg) := by
  simp [ProstituteEvent.toValue, from_event_generic, try_from_resolved_P,
    hid, insertId, obind_some, ProstituteEvent.fromValue, pFigureChanged,
    jfield, List.lookup, List.filter,
    decNat_encNat, decStr_encStr, decFigure_enc, decOptBlood,
    decOptBirthday, decQuestions, decNats, decOptNat, decQuestion_enc]

set_option maxHeartbeats 1000000 in
theorem P_rt_prostituteBloodTypeChanged (id : Nat) (bl : Option BloodType) (stream : String)
    (hid : entity_id stream = some id) :
    try_from_resolved_P
      ⟨stream,
        (from_event_generic (ProstituteEvent.prostituteBloodTypeChanged id bl).toValue).1,
        (from_event_generic (ProstituteEvent.prostituteBloodTypeChanged id bl).toValue).2⟩ =
      some (ProstituteEvent.prostituteBloodTypeChanged id bl) := by
  simp [ProstituteEvent.toValue, from_event_generic, try_from_resolved_P,
    hid, insertId, obind_some, ProstituteEvent.fromValue, pBloodTypeChanged,
    jfield, List.lookup, List.filter,
    decNat_encNat, decStr_encStr, decFigure_enc, decOptBlood,
    decOptBirthday, decQuestions, decNats, decOptNat, decQuestion_enc]

set_option maxHeartbeats 1000000 in
theorem P_rt_prostituteBirthdayChanged (id : Nat) (bd : Option Birthday) (stream : String)
    (hid : entity_id stream = some id) :
    try_from_resolved_P
      ⟨stream,
        (from_event_generic (ProstituteEvent.prostituteBirthdayChanged id bd).toValue).1,
        (from_event_generic (ProstituteEvent.prostituteBirthdayChanged id bd).toValue).2⟩ =
      some (ProstituteEvent.prostituteBirthdayChanged id bd) := by
  simp [ProstituteEvent.toValue, from_event_generic, try_from_resolved_P,
    hid, insertId, obind_some, ProstituteEvent.fromValue, pBirthdayChanged,
    jfield, List.lookup, List.filter,
    decNat_encNat, decStr_encStr, decFigure_enc, decOptBlood,
    decOptBirthday, decQuestions, decNats, decOptNat, decQuestion_enc]

set_option maxHeartbeats 1000000 in
theorem P_rt_prostituteQuestionsChanged (id : Nat) (qs : List Question) (stream : String)
    (hid : entity_id stream = some id) :
    try_from_resolved_P
      ⟨stream,
        (from_event_generic (ProstituteEvent.prostituteQuestionsChanged id qs).toValue).1,
        (from_event_generic (ProstituteEvent.prostituteQuestionsChanged id qs).toValue).2⟩ =
      some (ProstituteEvent.prostituteQuestionsChanged id qs) := by
  simp [ProstituteEvent.toValue, from_event_generic, try_from_resolved_P,
    hid, insertId, obind_some, ProstituteEvent.fromValue, pQuestionsChanged,
    jfield, List.lookup, List.filter,
    decNat_encNat, decStr_encStr, decFigure_enc, decOptBlood,
    decOptBirthday, decQuestions, decNats, decOptNat, decQuestion_enc]

set_option maxHeartbeats 1000000 in
theorem P_rt_prostituteQuestionAdded (id : Nat) (q : Question) (stream : String)
    (hid : entity_id stream = some id) :
    try_from_resolved_P
      ⟨stream,
        (from_event_generic (ProstituteEvent.prostituteQuestionAdded id q).toValue).1,
        (from_event_generic (ProstituteEvent.prostituteQuestionAdded id q).toValue).2⟩ =
      some (ProstituteEvent.prostituteQuestionAdded id q) := by
  simp [ProstituteEvent.toValue, from_event_generic, try_from_resolved_P,
    hid, insertId, obind_some, ProstituteEvent.fromValue, pQuestionAdded,
    jfield, List.lookup, List.filter,
    decNat_encNat, decStr_encStr, decFigure_enc, decOptBlood,
    decOptBirthday, decQuestions, decNats, decOptNat, decQuestion_enc]

set_option maxHeartbeats 1000000 in
theorem P_rt_prostituteQuestionDeleted (id : Nat) (i : Nat) (stream : String)
    (hid : entity_id stream = some id) :
    try_from_resolved_P
      ⟨stream,
        (from_event_generic (ProstituteEvent.prostituteQuestionDeleted id i).toValue).1,
        (from_event_generic (ProstituteEvent.prostituteQuestionDeleted id i).toValue).2⟩ =
      some (ProstituteEvent.prostituteQuestionDeleted id i) := by
  simp [ProstituteEvent.toValue, from_event_generic, try_from_resolved_P,
    hid, insertId, obind_some, ProstituteEvent.fromValue, pQuestionDeleted,
    jfield, List.lookup, List.filter,
    decNat_encNat, decStr_encStr, decFigure_enc, decOptBlood,
    decOptBirthday, decQuestions, decNats, decOptNat, decQuestion_enc]

set_option maxHeartbeats 1000000 in
theorem P_rt_prostituteQuestionSwapped (id : Nat) (a b : Nat) (stream : String)
    (hid : entity_id stream = some id) :
    try_from_resolved_P
      ⟨stream,
        (from_event_generic (ProstituteEvent.prostituteQuestionSwapped id a b).toValue).1,
        (from_event_generic (ProstituteEvent.prostituteQuestionSwapped id a b).toValue).2⟩ =
      some (ProstituteEvent.prostituteQuestionSwapped id a b) := by
  simp [ProstituteEvent.toValue, from_event_generic, try_from_resolved_P,
    hid, insertId, obind_some, ProstituteEvent.fromValue, pQuestionSwapped,
    jfield, List.lookup, List.filter,
    decNat_encNat, decStr_encStr, decFigure_enc, decOptBlood,
    decOptBirthday, decQuestions, decNats, decOptNat, decQuestion_enc]

set_option maxHeartbeats 1000000 in
theorem P_rt_prostituteImagesChanged (id : Nat) (ms2 : List Nat) (stream : String)
    (hid : entity_id stream = some id) :
    try_from_resolved_P
      ⟨stream,
        (from_event_generic (ProstituteEvent.prostituteImagesChanged id ms2).toValue).1,
        (from_event_generic (ProstituteEvent.prostituteImagesChanged id ms2).toValue).2⟩ =
      some (ProstituteEvent.prostituteImagesChanged id ms2) := by
  simp [ProstituteEvent.toValue, from_event_generic, try_from_resolved_P,
    hid, insertId, obind_some, ProstituteEvent.fromValue, pImagesChanged,
    jfield, List.lookup, List.filter,
    decNat_encNat, decStr_encStr, decFigure_enc, decOptBlood,
    decOptBirthday, decQuestions, decNats, decOptNat, decQuestion_enc]

set_option maxHeartbeats 1000000 in
theorem P_rt_prostituteImageAdded (id : Nat) (m : Nat) (stream : String)
    (hid : entity_id stream = some id) :
    try_from_resolved_P
      ⟨stream,
        (from_event_generic (ProstituteEvent.prostituteImageAdded id m).toValue).1,
        (from_event_generic (ProstituteEvent.prostituteImageAdded id m).toValue).2⟩ =
      some (ProstituteEvent.prostituteImageAdded id m) := by
  simp [ProstituteEvent.toValue, from_event_generic, try_from_resolved_P,
    hid, insertId, obind_some, ProstituteEvent.fromValue, pImageAdded,
    jfield, List.lookup, List.filter,
    decNat_encNat, decStr_encStr, decFigure_enc, decOptBlood,
    decOptBirthday, decQuestions, decNats, decOptNat, decQuestion_enc]

set_option maxHeartbeats 1000000 in
theorem P_rt_prostituteImageDeleted (id : Nat) (m : Nat) (stream : String)
    (hid : entity_id stream = some id) :
    try_from_resolved_P
      ⟨stream,
        (from_event_generic (ProstituteEvent.prostituteImageDeleted id m).toValue).1,
        (from_event_generic (ProstituteEvent.prostituteImageDeleted id m).toValue).2⟩ =
      some (ProstituteEvent.prostituteImageDeleted id m) := by
  simp [ProstituteEvent.toValue, from_event_generic, try_from_resolved_P,
    hid, insertId, obind_some, ProstituteEvent.fromValue, pImageDeleted,
    jfield, List.lookup, List.filter,
    decNat_encNat, decStr_encStr, decFigure_enc, decOptBlood,
    decOptBirthday, decQuestions, decNats, decOptNat, decQuestion_enc]

set_option maxHeartbeats 1000000 in
theorem P_rt_prostituteImageSwapped (id : Nat) (a b : Nat) (stream : String)
    (hid : entity_id stream = some id) :
    try_from_resolved_P
      ⟨stream,
        (from_event_generic (ProstituteEvent.prostituteImageSwapped id a b).toValue).1,
        (from_event_generic (ProstituteEvent.prostituteImageSwapped id a b).toValue).2⟩ =
      some (ProstituteEvent.prostituteImageSwapped id a b) := by
  simp [ProstituteEvent.toValue, from_event_generic, try_from_resolved_P,
    hid, insertId, obind_some, ProstituteEvent.fromValue, pImageSwapped,
    jfield, List.lookup, List.filter,
    decNat_encNat, decStr_encStr, decFigure_enc, decOptBlood,
    decOptBirthday, decQuestions, decNats, decOptNat, decQuestion_enc]

set_option maxHeartbeats 1000000 in
theorem P_rt_prostituteVideoChanged (id : Nat) (v : Option Nat) (stream : String)
    (hid : entity_id stream = some id) :
    try_from_resolved_P
      ⟨stream,
        (from_event_generic (ProstituteEvent.prostituteVideoChanged id v).toValue).1,
        (from_event_generic (ProstituteEvent.prostituteVideoChanged id v).toValue).2⟩ =
      some (ProstituteEvent.prostituteVideoChanged id v) := by
  simp [ProstituteEvent.toValue, from_event_generic, try_from_resolved_P,
    hid, insertId, obind_some, ProstituteEvent.fromValue, pVideoChanged,
    jfield, List.lookup, List.filter,
    decNat_encNat, decStr_encStr, decFigure_enc, decOptBlood,
    decOptBirthday, decQuestions, decNats, decOptNat, decQuestion_enc]

set_option maxHeartbeats 1000000 in
theorem P_rt_prostituteDeleted (id : Nat) (stream : String)
    (hid : entity_id stream = some id) :
    try_from_resolved_P
      ⟨stream,
        (from_event_generic (ProstituteEvent.prostituteDeleted id).toValue).1,
        (from_event_generic (ProstituteEvent.prostituteDeleted id).toValue).2⟩ =
      some (ProstituteEvent.prostituteDeleted id) := by
  simp [ProstituteEvent.toValue, from_event_generic, try_from_resolved_P,
    hid, insertId, obind_some, ProstituteEvent.fromValue, pDeleted,
    jfield, List.lookup, List.filter,
    decNat_encNat, decStr_encStr, decFigure_enc, decOptBlood,
    decOptBirthday, decQuestions, decNats, decOptNat, decQuestion_enc]

theorem P_roundtrip (e : ProstituteEvent) (stream : String)
    (hid : entity_id stream = some e.eventId) :
    try_from_resolved_P
      ⟨stream, (from_event_generic e.toValue).1,
        (from_event_generic e.toValue).2⟩ = some e := by
  cases e with
  | prostituteJoined id nm cp pr ms fg bl bd qs im vd =>
      exact P_rt_prostituteJoined id nm cp pr ms fg bl bd qs im vd stream hid
  | prostituteRejoined id => exact P_rt_prostituteRejoined id stream hid
  | prostituteLeaved id => exact P_rt_prostituteLeaved id stream hid
  | prostituteExtraServiceNameChanged id nm =>
      exact P_rt_prostituteExtraServiceNameChanged id nm stream hid
  | prostituteCatchphraseChanged id cp =>
      exact P_rt_prostituteCatchphraseChanged id cp stream hid
  | prostituteProfileChanged id pr =>
      exact P_rt_prostituteProfileChanged id pr stream hid
  | prostituteMessageChanged id ms =>
      exact P_rt_prostituteMessageChanged id ms stream hid
  | prostituteFigureChanged id fg =>
      exact P_rt_prostituteFigureChanged id fg stream hid
  | prostituteBloodTypeChanged id bl =>
      exact P_rt_prostituteBloodTypeChanged id bl stream hid
  | prostituteBirthdayChanged id bd =>
      exact P_rt_prostituteBirthdayChanged id bd stream hid
  | prostituteQuestionsChanged id qs =>
      exact P_rt_prostituteQuestionsChanged id qs stream hid
  | prostituteQuestionAdded id q =>
      exact P_rt_prostituteQuestionAdded id q stream hid
  | prostituteQuestionDeleted id i =>
      exact P_rt_prostituteQuestionDeleted id i stream hid
  | prostituteQuestionSwapped id a b =>
      exact P_rt_prostituteQuestionSwapped id a b stream hid
  | prostituteImagesChanged id ms2 =>
      exact P_rt_prostituteImagesChanged id ms2 stream hid
  | prostituteImageAdded id m => exact P_rt_prostituteImageAdded id m stream hid
  | prostituteImageDeleted id m =>
      exact P_rt_prostituteImageDeleted id m stream hid
  | prostituteImageSwapped id a b =>
      exact P_rt_prostituteImageSwapped id a b stream hid
  | prostituteVideoChanged id v =>
      exact P_rt_prostituteVideoChanged id v stream hid
  | prostituteDeleted id => exact P_rt_prostituteDeleted id stream hid

/-! ### Schedule events on the wire -/

/-- `Range<DateTime<Utc>>` on the wire: `start` and `end` fields; the
chrono instants are represented numerically (injectively). -/
def encTimeRange (t : TimeRange) : Json :=
  .obj [("start", encInt t.start), ("end", encInt t.stop)]

def decTimeRange : Json → Option TimeRange
  | .obj fields => do
      let start ← jfield fields "start" >>= decInt
      let stop ← jfield fields "end" >>= decInt
      some ⟨start, stop⟩
  | _ => none

theorem decTimeRange_enc (t : TimeRange) : decTimeRange (encTimeRange t) = some t := by
  cases t with
  | mk a b =>
      simp [encTimeRange, decTimeRange, jfield, List.lookup, encInt, decInt,
        obind_some]

def encShiftStatus : ShiftStatus → Json
  | .Editing => .str "Editing"
  | .Reviewing => .str "Reviewing"
  | .Confirmed => .str "Confirmed"
  | .Canceled => .str "Canceled"

def decShiftStatus : Json → Option ShiftStatus
  | .str "Editing" => some .Editing
  | .str "Reviewing" => some .Reviewing
  | .str "Confirmed" => some .Confirmed
  | .str "Canceled" => some .Canceled
  | _ => none

theorem decShiftStatus_enc (s : ShiftStatus) :
    decShiftStatus (encShiftStatus s) = some s := by
  cases s <;> rfl

def encShift (sh : Shift) : Json :=
  .obj [("id", encNat sh.id), ("time", encTimeRange sh.time),
        ("status", encShiftStatus sh.status)]

def decShift : Json → Option Shift
  | .obj fields => do
      let id ← jfield fields "id" >>= decNat
      let time ← jfield fields "time" >>= decTimeRange
      let status ← jfield fields "status" >>= decShiftStatus
      some ⟨id, time, status⟩
  | _ => none

theorem decShift_enc (sh : Shift) : decShift (encShift sh) = some sh := by
  cases sh with
  | mk id time status =>
      simp [encShift, decShift, jfield, List.lookup, decNat_encNat,
        decTimeRange_enc, decShiftStatus_enc, obind_some]

/-- The serde externally-tagged serialization of `ScheduleEvent`. -/
def ScheduleEvent.toValue : ScheduleEvent → Json
  | .scheduleCreated id prostitute_id =>
      .obj [("ScheduleCreated", .obj
        [("id", encNat id), ("prostitute_id", encNat prostitute_id)])]
  | .scheduleDeleted id =>
      .obj [("ScheduleDeleted", .obj [("id", encNat id)])]
  | .shiftAdded id shift =>
      .obj [("ShiftAdded", .obj
        [("id", encNat id), ("shift", encShift shift)])]
  | .shiftTimeChanged shift_id time =>
      .obj [("ShiftTimeChanged", .obj
        [("shift_id", encNat shift_id), ("time", encTimeRange time)])]
  | .shiftStatusChanged shift_id status =>
      .obj [("ShiftStatusChanged", .obj
        [("shift_id", encNat shift_id), ("status", encShiftStatus status)])]
  | .shiftsDeleted shift_ids =>
      .obj [("ShiftsDeleted", .obj
        [("shift_ids", encList encNat shift_ids)])]

def sParseCreated (fields : List (String × Json)) : Option ScheduleEvent := do
  let id ← jfield fields "id" >>= decNat
  let prostitute_id ← jfield fields "prostitute_id" >>= decNat
  some (.scheduleCreated id prostitute_id)

def sParseDeleted (fields : List (String × Json)) : Option ScheduleEvent := do
  let id ← jfield fields "id" >>= decNat
  some (.scheduleDeleted id)

def sParseShiftAdded (fields : List (String × Json)) : Option ScheduleEvent := do
  let id ← jfield fields "id" >>= decNat
  let shift ← jfield fields "shift" >>= decShift
  some (.shiftAdded id shift)

def sParseShiftTimeChanged (fields : List (String × Json)) :
    Option ScheduleEvent := do
  let shift_id ← jfield fields "shift_id" >>= decNat
  let time ← jfield fields "time" >>= decTimeRange
  some (.shiftTimeChanged shift_id time)

def sParseShiftStatusChanged (fields : List (String × Json)) :
    Option ScheduleEvent := do
  let shift_id ← jfield fields "shift_id" >>= decNat
  let status ← jfield fields "status" >>= decShiftStatus
  some (.shiftStatusChanged shift_id status)

def sParseShiftsDeleted (fields : List (String × Json)) :
    Option ScheduleEvent := do
  let shift_ids ← jfield fields "shift_ids" >>= decList decNat
  some (.shiftsDeleted shift_ids)

/-- The serde deserializer for `ScheduleEvent`. -/
def ScheduleEvent.fromValue : Json → Option ScheduleEvent
  | .obj [(tag, .obj fields)] =>
      if tag = "ScheduleCreated" then sParseCreated fields
      else if tag = "ScheduleDeleted" then sParseDeleted fields
      else if tag = "ShiftAdded" then sParseShiftAdded fields
      else if tag = "ShiftTimeChanged" then sParseShiftTimeChanged fields
      else if tag = "ShiftStatusChanged" then sParseShiftStatusChanged fields
      else if tag = "ShiftsDeleted" then sParseShiftsDeleted fields
      else none
  | _ => none

/-- `try_from_resolved_event` specialized to Schedule. -/
def try_from_resolved_S (r : ResolvedEventJ) : Option ScheduleEvent := do
  let id ← entity_id r.stream_id
  let data ← insertId r.data id
  ScheduleEvent.fromValue (.obj [(r.event_type, data)])

/-- The schedule id carried by the event, when the variant has one
(the three shift-keyed variants carry none). -/
def ScheduleEvent.eventIdq : ScheduleEvent → Option Nat
  | .scheduleCreated id _ => some id
  | .scheduleDeleted id => some id
  | .shiftAdded id _ => some id
  | .shiftTimeChanged _ _ => none
  | .shiftStatusChanged _ _ => none
  | .shiftsDeleted _ => none

theorem S_roundtrip (e : ScheduleEvent) (stream : String) (n : Nat)
    (hid : entity_id stream = some n)
    (hn : e.eventIdq = none ∨ e.eventIdq = some n) :
    try_from_resolved_S
      ⟨stream, (from_event_generic e.toValue).1,
        (from_event_generic e.toValue).2⟩ = some e := by
  cases e with
  | scheduleCreated id pid =>
      obtain h | h := hn <;> simp [ScheduleEvent.eventIdq] at h
      subst h
      simp [ScheduleEvent.toValue, from_event_generic, try_from_resolved_S,
        hid, insertId, obind_some, ScheduleEvent.fromValue, sParseCreated,
        jfield, List.lookup, List.filter, decNat_encNat]
  | scheduleDeleted id =>
      obtain h | h := hn <;> simp [ScheduleEvent.eventIdq] at h
      subst h
      simp [ScheduleEvent.toValue, from_event_generic, try_from_resolved_S,
        hid, insertId, obind_some, ScheduleEvent.fromValue, sParseDeleted,
        jfield, List.lookup, List.filter, decNat_encNat]
  | shiftAdded id shift =>
      obtain h | h := hn <;> simp [ScheduleEvent.eventIdq] at h
      subst h
      simp [ScheduleEvent.toValue, from_event_generic, try_from_resolved_S,
        hid, insertId, obind_some, ScheduleEvent.fromValue, sParseShiftAdded,
        jfield, List.lookup, List.filter, decNat_encNat, decShift_enc]
  | shiftTimeChanged shift_id time =>
      simp [ScheduleEvent.toValue, from_event_generic, try_from_resolved_S,
        hid, insertId, obind_some, ScheduleEvent.fromValue,
        sParseShiftTimeChanged, jfield, List.lookup, List.filter,
        decNat_encNat, decTimeRange_enc]
  | shiftStatusChanged shift_id status =>
      simp [ScheduleEvent.toValue, from_event_generic, try_from_resolved_S,
        hid, insertId, obind_some, ScheduleEvent.fromValue,
        sParseShiftStatusChanged, jfield, List.lookup, List.filter,
        decNat_encNat, decShiftStatus_enc]
  | shiftsDeleted shift_ids =>
      simp [ScheduleEvent.toValue, from_event_generic, try_from_resolved_S,
        hid, insertId, obind_some, ScheduleEvent.fromValue,
        sParseShiftsDeleted, jfield, List.lookup, List.filter,
        decNat_encNat, decNats]

/-! ### Media events on the wire (binary body, mime in metadata) -/

/-- The external `mime` crate's parse, modelled on the textual form (it
accepts every string it itself printed). -/
def Mime.parse (s : String) : Option Mime := some ⟨s⟩

/-- `From<MediaEvent> for EventData` (infrastructure/core/media.rs lines
93-106): binary body; `MediaCreated` carries `contentType` metadata. -/
def MediaEvent.toEventData : MediaEvent → String × List Nat × List (String × String)
  | .mediaCreated _ mime data => ("MediaCreated", data, [("contentType", mime.text)])
  | .mediaDeleted _ => ("MediaDeleted", [], [])

/-- A log record carrying a binary body and JSON string metadata, as the
Media `TryFrom<ResolvedEvent>` reads it. -/
structure ResolvedEventB where
  stream_id : String
  event_type : String
  data : List Nat
  custom_metadata : List (String × String)

/-- `TryFrom<ResolvedEvent> for MediaEvent` (media.rs lines 108-131):
dispatch on event_type; recover the id from the stream; for `MediaCreated`
read the mime from the `contentType` metadata entry and keep the raw
bytes. -/
def try_from_resolved_M (r : ResolvedEventB) : Option MediaEvent :=
  if r.event_type = "MediaCreated" then do
    let id ← entity_id r.stream_id
    let mimeText ← r.custom_metadata.lookup "contentType"
    let mime ← Mime.parse mimeText
    some (.mediaCreated id mime r.data)
  else if r.event_type = "MediaDeleted" then do
    let id ← entity_id r.stream_id
    some (.mediaDeleted id)
  else none

def MediaEvent.eventId : MediaEvent → Nat
  | .mediaCreated id _ _ => id
  | .mediaDeleted id => id

theorem M_roundtrip (e : MediaEvent) (stream : String)
    (hid : entity_id stream = some e.eventId) :
    try_from_resolved_M
      ⟨stream, e.toEventData.1, e.toEventData.2.1, e.toEventData.2.2⟩ =
      some e := by
  cases e <;>
    simp [MediaEvent.toEventData, try_from_resolved_M, MediaEvent.eventId,
      hid, obind_some, Mime.parse, List.lookup]

/-- Claim C5: for every domain event variant, encoding to a log record
(ExtraService, Prostitute and Schedule as JSON envelopes with the variant
tag as event_type and the body without the `id` field; Media as binary
body with the mime in `contentType` metadata) and decoding the record back
from a stream whose name carries the event's id yields the original event,
the id recovered from the stream name. For the three Schedule shift events,
which carry no schedule id, any recoverable stream id round-trips. -/
theorem claim_C5_envelope_roundtrip :
    (∀ (e : ExtraServiceEvent) (stream : String),
        entity_id stream = some e.eventId →
        try_from_resolved_ES
          ⟨stream, (from_event_generic e.toValue).1,
            (from_event_generic e.toValue).2⟩ = some e) ∧
    (∀ (e : ProstituteEvent) (stream : String),
        entity_id stream = some e.eventId →
        try_from_resolved_P
          ⟨stream, (from_event_generic e.toValue).1,
            (from_event_generic e.toValue).2⟩ = some e) ∧
    (∀ (e : ScheduleEvent) (stream : String) (n : Nat),
        entity_id stream = some n →
        (e.eventIdq = none ∨ e.eventIdq = some n) →
        try_from_resolved_S
          ⟨stream, (from_event_generic e.toValue).1,
            (from_event_generic e.toValue).2⟩ = some e) ∧
    (∀ (e : MediaEvent) (stream : String),
        entity_id stream = some e.eventId →
        try_from_resolved_M
          ⟨stream, e.toEventData.1, e.toEventData.2.1, e.toEventData.2.2⟩ =
          some e) :=
  ⟨ES_roundtrip, P_roundtrip, S_roundtrip, M_roundtrip⟩

/-- Claim C5 witness: the round-trip applied to one concrete event per
family on its stream. -/
theorem claim_C5_envelope_roundtrip_witness :
    try_from_resolved_ES
      ⟨"extra_service-30",
        (from_event_generic
          (ExtraServiceEvent.extraServiceNameChanged 30 "AF").toValue).1,
        (from_event_generic
          (ExtraServiceEvent.extraServiceNameChanged 30 "AF").toValue).2⟩ =
      some (.extraServiceNameChanged 30 "AF") ∧
    try_from_resolved_P
      ⟨"prostitute-5",
        (from_event_generic (ProstituteEvent.prostituteLeaved 5).toValue).1,
        (from_event_generic (ProstituteEvent.prostituteLeaved 5).toValue).2⟩ =
      some (.prostituteLeaved 5) ∧
    try_from_resolved_S
      ⟨"schedule-7",
        (from_event_generic
          (ScheduleEvent.shiftTimeChanged 3 ⟨0, 10⟩).toValue).1,
        (from_event_generic
          (ScheduleEvent.shiftTimeChanged 3 ⟨0, 10⟩).toValue).2⟩ =
      some (.shiftTimeChanged 3 ⟨0, 10⟩) ∧
    try_from_resolved_M
      ⟨"media-9", (MediaEvent.mediaCreated 9 ⟨"image/gif"⟩ [1, 2]).toEventData.1,
        (MediaEvent.mediaCreated 9 ⟨"image/gif"⟩ [1, 2]).toEventData.2.1,
        (MediaEvent.mediaCreated 9 ⟨"image/gif"⟩ [1, 2]).toEventData.2.2⟩ =
      some (.mediaCreated 9 ⟨"image/gif"⟩ [1, 2]) := by
  obtain ⟨hES, hP, hS, hM⟩ := claim_C5_envelope_roundtrip
  exact ⟨hES (.extraServiceNameChanged 30 "AF") "extra_service-30" (by decide),
    hP (.prostituteLeaved 5) "prostitute-5" (by decide),
    hS (.shiftTimeChanged 3 ⟨0, 10⟩) "schedule-7" 7 (by decide) (Or.inl rfl),
    hM (.mediaCreated 9 ⟨"image/gif"⟩ [1, 2]) "media-9" (by decide)⟩

/-! ## Event-store repository I/O traces
(src/infrastructure/core/{extra_service,media,prostitute,schedule}.rs)

Each repository method is embedded as the ordered list of event-store
client calls it issues; an early `?` return cuts the trace. The append
outcome is a parameter (the store is external). -/

inductive ExpectedRevision
  | NoStream
  | StreamExists
  deriving Repr, DecidableEq

/-- An `EventData` on the wire: a JSON envelope or a binary body with
string metadata. -/
inductive WireEventData
  | json (event_type : String) (body : Json)
  | binary (event_type : String) (body : List Nat)
      (metadata : List (String × String))

/-- The event-store client calls a repository issues, in order. -/
inductive StoreAction
  | appendToStream (stream : String) (expected : ExpectedRevision)
      (events : List WireEventData)
  | deleteStream (stream : String)

def StoreAction.isAppend : StoreAction → Bool
  | .appendToStream _ _ _ => true
  | .deleteStream _ => false

/-- `From<ExtraServiceEvent> for EventData` via `from_event`. -/
def ExtraServiceEvent.toEventData (e : ExtraServiceEvent) : WireEventData :=
  .json (from_event_generic e.toValue).1 (from_event_generic e.toValue).2

/-- `From<ProstituteEvent> for EventData` via `from_event`. -/
def ProstituteEvent.toEventData (e : ProstituteEvent) : WireEventData :=
  .json (from_event_generic e.toValue).1 (from_event_generic e.toValue).2

/-- `From<ScheduleEvent> for EventData` via `from_event`. -/
def ScheduleEvent.toEventData (e : ScheduleEvent) : WireEventData :=
  .json (from_event_generic e.toValue).1 (from_event_generic e.toValue).2

/-- `From<MediaEvent> for EventData`: binary. -/
def MediaEvent.toWire (e : MediaEvent) : WireEventData :=
  .binary e.toEventData.1 e.toEventData.2.1 e.toEventData.2.2

/-- DataAccessError (domain.rs lines 99-112), by kind. -/
inductive DataAccessErrorK
  | ConnectionError
  | QueryError
  | ReadError
  | WriteError
  | ClientSideError
  deriving Repr, DecidableEq

namespace EventStoreExtraServiceRepository

/-- `EventStoreExtraServiceRepository::delete` (extra_service.rs lines
76-87): append the `ExtraServiceDeleted` tombstone under `StreamExists`;
only if that append succeeded, delete the stream. -/
def delete (appendOk : Bool) (entity : ExtraService) : List StoreAction :=
  let stream := stream_name "extra_service" entity.id
  .appendToStream stream .StreamExists
      [(ExtraServiceEvent.extraServiceDeleted entity.id).toEventData] ::
    (if appendOk then [.deleteStream stream] else [])

/-- `EventStoreExtraServiceRepository::save` (extra_service.rs lines
55-74): peek to choose the expected revision (creation variant first in
queue ⇒ `NoStream`), return `Ok(false)` on an empty queue, otherwise
`pop_all` the queue — draining it BEFORE the append I/O — and append;
`WrongExpectedVersion` surfaces as the given error AFTER the queue was
drained. Returns (entity after the call, result, issued calls). -/
def save (appendErr : Option DataAccessErrorK) (entity : ExtraService) :
    ExtraService × Except DataAccessErrorK Bool × List StoreAction :=
  match entity.events.head? with
  | none => (entity, .ok false, [])
  | some e0 =>
      let rev : ExpectedRevision :=
        match e0 with
        | .extraServiceCreated _ _ _ _ => .NoStream
        | _ => .StreamExists
      let drained := entity.events
      let entity2 := { entity with events := [] }
      let actions := [StoreAction.appendToStream
        (stream_name "extra_service" entity.id) rev
        (drained.map ExtraServiceEvent.toEventData)]
      match appendErr with
      | none => (entity2, .ok true, actions)
      | some err => (entity2, .error err, actions)

end EventStoreExtraServiceRepository

namespace EventStoreMediaRepository

/-- `EventStoreMediaRepository::delete` (media.rs lines 77-90): tombstone
append, then stream delete. -/
def delete (appendOk : Bool) (entity : Media) : List StoreAction :=
  let stream := stream_name "media" entity.id
  .appendToStream stream .StreamExists
      [(MediaEvent.mediaDeleted entity.id).toWire] ::
    (if appendOk then [.deleteStream stream] else [])

/-- `EventStoreMediaRepository::save` (media.rs lines 56-75): same shape
as the ExtraService save; the queue is drained by the `while let
Some(e) = entity.pop()` loop before the append. -/
def save (appendErr : Option DataAccessErrorK) (entity : Media) :
    Media × Except DataAccessErrorK Bool × List StoreAction :=
  match entity.events.head? with
  | none => (entity, .ok false, [])
  | some e0 =>
      let rev : ExpectedRevision :=
        match e0 with
        | .mediaCreated _ _ _ => .NoStream
        | _ => .StreamExists
      let drained := entity.events
      let entity2 := { entity with events := [] }
      let actions := [StoreAction.appendToStream (stream_name "media" entity.id)
        rev (drained.map MediaEvent.toWire)]
      match appendErr with
      | none => (entity2, .ok true, actions)
      | some err => (entity2, .error err, actions)

end EventStoreMediaRepository

namespace EventStoreScheduleRepository

/-- `EventStoreScheduleRepository::delete` (schedule.rs lines 76-87):
tombstone append, then stream delete. -/
def delete (appendOk : Bool) (entity : Schedule) : List StoreAction :=
  let stream := stream_name "schedule" entity.id
  .appendToStream stream .StreamExists
      [(ScheduleEvent.scheduleDeleted entity.id).toEventData] ::
    (if appendOk then [.deleteStream stream] else [])

end EventStoreScheduleRepository

namespace EventStoreProstituteRepository

/-- `EventStoreProstituteRepository::delete` (prostitute.rs lines 76-82):
the ONLY call issued is the stream delete — no tombstone append. -/
def delete (entity : Prostitute) : List StoreAction :=
  [.deleteStream (stream_name "prostitute" entity.id)]

end EventStoreProstituteRepository

/-- Claim C7 counterexample: the Prostitute repository's `delete` issues
only the stream delete — it never appends a `ProstituteDeleted` tombstone,
falsifying the claim at this concrete aggregate. -/
theorem claim_C7_counterexample_prostitute_no_tombstone :
    EventStoreProstituteRepository.delete { Prostitute.default with id := 5 } =
      [.deleteStream "prostitute-5"] ∧
    ∀ a ∈ EventStoreProstituteRepository.delete
        { Prostitute.default with id := 5 }, a.isAppend = false := by
  constructor
  · rfl
  · intro a ha
    simp [EventStoreProstituteRepository.delete] at ha
    subst ha
    rfl

/-- Claim C7 (amended): the ExtraService, Media and Schedule repositories
append the aggregate's `Deleted` tombstone to `<entity>-<id>` under
`StreamExists` first, and issue the stream delete only after (and only
if) that append succeeded; the Prostitute repository differs: it issues
only the stream delete, with no tombstone. -/
theorem claim_C7_tombstone_then_delete :
    (∀ (ok : Bool) (e : ExtraService),
        EventStoreExtraServiceRepository.delete ok e =
          .appendToStream (stream_name "extra_service" e.id) .StreamExists
              [(ExtraServiceEvent.extraServiceDeleted e.id).toEventData] ::
            (if ok then [.deleteStream (stream_name "extra_service" e.id)]
             else [])) ∧
    (∀ (ok : Bool) (e : Media),
        EventStoreMediaRepository.delete ok e =
          .appendToStream (stream_name "media" e.id) .StreamExists
              [(MediaEvent.mediaDeleted e.id).toWire] ::
            (if ok then [.deleteStream (stream_name "media" e.id)] else [])) ∧
    (∀ (ok : Bool) (e : Schedule),
        EventStoreScheduleRepository.delete ok e =
          .appendToStream (stream_name "schedule" e.id) .StreamExists
              [(ScheduleEvent.scheduleDeleted e.id).toEventData] ::
            (if ok then [.deleteStream (stream_name "schedule" e.id)]
             else [])) ∧
    (∀ e : Prostitute,
        EventStoreProstituteRepository.delete e =
          [.deleteStream (stream_name "prostitute" e.id)]) :=
  ⟨fun _ _ => rfl, fun _ _ => rfl, fun _ _ => rfl, fun _ => rfl⟩

/-- Claim C10: repository `save` drains the aggregate's queue before the
append I/O. Whenever `save` finds a non-empty queue, the aggregate's queue
is empty after the call — whether the append succeeded (`Ok(true)`) or
failed with any error (e.g. `WriteError` from `WrongExpectedVersion`) —
the un-persisted events are not restored, and an immediate retry on the
same in-memory aggregate returns `Ok(false)` and issues no store call at
all. Proved for the ExtraService and Media repositories. -/
theorem claim_C10_save_drains_queue_before_append :
    (∀ (appendErr : Option DataAccessErrorK) (e : ExtraService),
        e.events ≠ [] →
        (EventStoreExtraServiceRepository.save appendErr e).1.events = [] ∧
        (appendErr = none →
          (EventStoreExtraServiceRepository.save appendErr e).2.1 = .ok true) ∧
        (∀ err, appendErr = some err →
          (EventStoreExtraServiceRepository.save appendErr e).2.1 =
            .error err) ∧
        (∀ retryErr, EventStoreExtraServiceRepository.save retryErr
            (EventStoreExtraServiceRepository.save appendErr e).1 =
          ((EventStoreExtraServiceRepository.save appendErr e).1,
            .ok false, []))) ∧
    (∀ (appendErr : Option DataAccessErrorK) (e : Media), e.events ≠ [] →
        (EventStoreMediaRepository.save appendErr e).1.events = [] ∧
        (appendErr = none →
          (EventStoreMediaRepository.save appendErr e).2.1 = .ok true) ∧
        (∀ err, appendErr = some err →
          (EventStoreMediaRepository.save appendErr e).2.1 = .error err) ∧
        (∀ retryErr, EventStoreMediaRepository.save retryErr
            (EventStoreMediaRepository.save appendErr e).1 =
          ((EventStoreMediaRepository.save appendErr e).1, .ok false, []))) := by
  constructor
  · intro appendErr e hne
    cases hev : e.events with
    | nil => exact absurd hev hne
    | cons e0 rest =>
        cases appendErr with
        | none =>
            refine ⟨?_, ?_, ?_, ?_⟩ <;>
              simp [EventStoreExtraServiceRepository.save, hev]
        | some err =>
            refine ⟨?_, ?_, ?_, ?_⟩ <;>
              simp [EventStoreExtraServiceRepository.save, hev]
  · intro appendErr e hne
    cases hev : e.events with
    | nil => exact absurd hev hne
    | cons e0 rest =>
        cases appendErr with
        | none =>
            refine ⟨?_, ?_, ?_, ?_⟩ <;>
              simp [EventStoreMediaRepository.save, hev]
        | some err =>
            refine ⟨?_, ?_, ?_, ?_⟩ <;>
              simp [EventStoreMediaRepository.save, hev]

/-- Claim C10 witness: a concrete ExtraService and Media with one queued
event each, saved under a `WriteError` append failure. -/
theorem claim_C10_save_drains_queue_witness :
    (⟨0, "", "", ⟨0, .JPY⟩,
        [.extraServiceNameChanged 0 "B"]⟩ : ExtraService).events ≠ [] ∧
    (EventStoreExtraServiceRepository.save (some .WriteError)
      ⟨0, "", "", ⟨0, .JPY⟩, [.extraServiceNameChanged 0 "B"]⟩).1.events = [] ∧
    (⟨9, ⟨"image/gif"⟩, [1], [.mediaDeleted 9]⟩ : Media).events ≠ [] ∧
    (EventStoreMediaRepository.save (some .WriteError)
      ⟨9, ⟨"image/gif"⟩, [1], [.mediaDeleted 9]⟩).1.events = [] := by
  obtain ⟨hES, hM⟩ := claim_C10_save_drains_queue_before_append
  refine ⟨by simp, ?_, by simp, ?_⟩
  · exact (hES (some .WriteError)
      ⟨0, "", "", ⟨0, .JPY⟩, [.extraServiceNameChanged 0 "B"]⟩ (by simp)).1
  · exact (hM (some .WriteError)
      ⟨9, ⟨"image/gif"⟩, [1], [.mediaDeleted 9]⟩ (by simp)).1

/-! ## Projection worker (dely_sync/src/main.rs) -/

/-- The closed sum of domain events (domain/core.rs `CoreEvent`). -/
inductive CoreEvent
  | extraServiceEvent (e : ExtraServiceEvent)
  | mediaEvent (e : MediaEvent)
  | prostituteEvent (e : ProstituteEvent)
  | scheduleEvent (e : ScheduleEvent)

/-- The identifying data of a received record the loop body uses. -/
structure WorkerRecord where
  event_id : Nat
  commit : Nat
  prepare : Nat

/-- The index operations one iteration of the worker loop issues. -/
inductive WorkerAction
  | execute (e : CoreEvent)
  | checkpointUpsert (index : String) (doc_id : Nat) (event_id : Nat)
      (commit prepare : Nat)

/-- One iteration of the `subscribe` loop (dely_sync/src/main.rs lines
71-103) for a received record: if the envelope decodes to a `CoreEvent`,
dispatch it (`client.execute`); if that execution errors, `continue` —
skipping the checkpoint upsert. Otherwise (including when decoding fails,
the system-event branch) upsert the checkpoint document (index
`eventstore_version`, document id 1) with the record's event id and
position. `decoded` is the result of `CoreEvent::try_from`, `execOk`
whether the index operation succeeded. -/
def subscribeBody (decoded : Option CoreEvent) (execOk : Bool)
    (r : WorkerRecord) : List WorkerAction :=
  match decoded with
  | some e =>
      if execOk then
        [.execute e,
         .checkpointUpsert "eventstore_version" 1 r.event_id r.commit r.prepare]
      else
        [.execute e]
  | none =>
      [.checkpointUpsert "eventstore_version" 1 r.event_id r.commit r.prepare]

/-- Claim C6: when envelope decoding fails the checkpoint document (index
`eventstore_version`, id 1) is still upserted with the record's event id
and position; when decoding succeeds but the index operation errors, the
body issues only the index operation and no checkpoint upsert, so the
checkpoint does not advance past the failed event. -/
theorem claim_C6_checkpoint_on_decode_failure_not_on_index_failure :
    ∀ (execOk : Bool) (r : WorkerRecord) (e : CoreEvent),
      subscribeBody none execOk r =
        [.checkpointUpsert "eventstore_version" 1 r.event_id r.commit
          r.prepare] ∧
      subscribeBody (some e) false r = [.execute e] ∧
      ∀ a ∈ subscribeBody (some e) false r,
        ∀ idx d i c p, a ≠ .checkpointUpsert idx d i c p := by
  intro execOk r e
  refine ⟨rfl, rfl, ?_⟩
  intro a ha idx d i c p
  simp [subscribeBody] at ha
  subst ha
  intro hc
  exact WorkerAction.noConfusion hc

/-- Claim C6 witness: the loop-body contract at a concrete record and a
concrete domain event. -/
theorem claim_C6_checkpoint_witness :
    subscribeBody none true ⟨1, 2, 3⟩ =
      [.checkpointUpsert "eventstore_version" 1 1 2 3] ∧
    subscribeBody
        (some (.extraServiceEvent (.extraServiceDeleted 4))) false ⟨1, 2, 3⟩ =
      [.execute (.extraServiceEvent (.extraServiceDeleted 4))] ∧
    WorkerAction.execute (.extraServiceEvent (.extraServiceDeleted 4)) ≠
      .checkpointUpsert "eventstore_version" 1 1 2 3 := by
  obtain ⟨h1, h2, h3⟩ :=
    claim_C6_checkpoint_on_decode_failure_not_on_index_failure true ⟨1, 2, 3⟩
      (.extraServiceEvent (.extraServiceDeleted 4))
  exact ⟨h1, h2,
    h3 (.execute (.extraServiceEvent (.extraServiceDeleted 4)))
      (by simp [subscribeBody]) "eventstore_version" 1 1 2 3⟩

end Dely
